import Mathlib

/-!
Verification development for the STRATIFY alert-triage pipeline.

This file gives a shallow embedding of the deterministic analysis code of the
repository (transaction sanitizer, behavioral baseline, deviation analyzer,
cross-source risk aggregator, rule-based triage, behavioral anomaly scorer,
composite classifier, typology classifier, narrative-validator consolidation,
and the orchestrator's branch after triage) and proves properties of that
embedding.

Modelling conventions:
* Python floats are embedded as exact rationals (`ℚ`); `round(x, n)` is
  embedded as round-half-to-even on rationals (`pyRound`).
* Optional / nullable dictionary fields are embedded as `Option` fields;
  Python truthiness of strings (`None` and `""` are falsy) is `strFalsy`.
* Dates are embedded at calendar-day granularity: `parseDate` models
  `datetime.fromisoformat` on `YYYY-MM-DD[T...]` inputs (time-of-day
  components are dropped; no proved claim depends on intraday times), and
  `parseDate10` models `datetime.strptime(s, "%Y-%m-%d")`.
* Python `set` objects whose iteration order is irrelevant to every claim
  are embedded as duplicate-free lists built by `insertIfAbsent`.
-/

/-- Python truthiness for an optional string: `None` and `""` are falsy. -/
def strFalsy : Option String → Bool
  | none => true
  | some s => s = ""

/-- Membership test mirroring Python's `needle in haystack` on lists of
characters: `startsWithChars n h` is true when `n` is a leading segment of
`h`. -/
def startsWithChars : List Char → List Char → Bool
  | [], _ => true
  | _ :: _, [] => false
  | a :: as, b :: bs => a = b && startsWithChars as bs

/-- True when `needle` occurs as a contiguous segment of `hay`. -/
def containsChars (needle : List Char) : List Char → Bool
  | [] => needle.isEmpty
  | c :: rest => startsWithChars needle (c :: rest) || containsChars needle rest

/-- Python's substring test `needle in hay`. -/
def strIn (needle hay : String) : Bool :=
  containsChars needle.toList hay.toList

/-- Round half to even on rationals, the rounding rule of Python's builtin
`round`. -/
def roundHalfToEven (q : ℚ) : Int :=
  let f := ⌊q⌋
  let r := q - f
  if r < 1/2 then f
  else if 1/2 < r then f + 1
  else if f % 2 = 0 then f else f + 1

/-- Embedding of Python's `round(q, n)` on exact rationals. -/
def pyRound (q : ℚ) (n : Nat) : ℚ :=
  (roundHalfToEven (q * 10 ^ n) : ℚ) / 10 ^ n

/-- A calendar date (year, month, day). -/
structure Date where
  year : Int
  month : Int
  day : Int
  deriving DecidableEq

/-- Value of a decimal digit character, if it is one. -/
def digitVal (c : Char) : Option Int :=
  if '0' ≤ c ∧ c ≤ '9' then some ((c.toNat : Int) - 48) else none

/-- Embedding of `datetime.fromisoformat` (after the source's
`.replace("Z", "+00:00")`) at day granularity: accepts `YYYY-MM-DD`
optionally followed by a time part introduced by `T` or a space, validates
month and day ranges, and returns `none` on anything else (the source raises
`ValueError` there). -/
def parseDate (s : String) : Option Date :=
  match s.toList with
  | y1 :: y2 :: y3 :: y4 :: '-' :: m1 :: m2 :: '-' :: d1 :: d2 :: rest =>
    let tailOk : Bool :=
      match rest with
      | [] => true
      | 'T' :: _ => true
      | ' ' :: _ => true
      | _ => false
    (match digitVal y1, digitVal y2, digitVal y3, digitVal y4,
           digitVal m1, digitVal m2, digitVal d1, digitVal d2 with
     | some a, some b, some c, some d, some e, some f, some g, some h =>
       let year := 1000 * a + 100 * b + 10 * c + d
       let mon := 10 * e + f
       let day := 10 * g + h
       if tailOk ∧ 1 ≤ year ∧ 1 ≤ mon ∧ mon ≤ 12 ∧ 1 ≤ day ∧ day ≤ 31 then
         some ⟨year, mon, day⟩
       else none
     | _, _, _, _, _, _, _, _ => none)
  | _ => none

/-- Embedding of `datetime.strptime(s, "%Y-%m-%d")`: the strict ten-character
date format with no trailing time part. -/
def parseDate10 (s : String) : Option Date :=
  if s.length = 10 then parseDate s else none

/-- Strict calendar order on dates (the order `datetime` comparison induces
at day granularity). -/
def dateLt (a b : Date) : Bool :=
  a.year < b.year ∨ (a.year = b.year ∧
    (a.month < b.month ∨ (a.month = b.month ∧ a.day < b.day)))

/-- Day number of a date in the proleptic Gregorian calendar (the civil
`days_from_civil` algorithm), used to embed `timedelta.days` between two
parsed dates. -/
def dayNumber (d : Date) : Int :=
  let y : Int := if d.month ≤ 2 then d.year - 1 else d.year
  let era : Int := (if 0 ≤ y then y else y - 399) / 400
  let yoe : Int := y - era * 400
  let mp : Int := (d.month + 9) % 12
  let doy : Int := (153 * mp + 2) / 5 + d.day - 1
  let doe : Int := yoe * 365 + yoe / 4 - yoe / 100 + doy
  era * 146097 + doe - 719468

/-- Format a natural-indexed component with two digits (`%m` / `%d`). -/
def pad2 (n : Int) : String :=
  if n < 10 then "0" ++ toString n else toString n

/-- Format a year with four digits (`%Y`). -/
def pad4 (n : Int) : String :=
  if n < 10 then "000" ++ toString n
  else if n < 100 then "00" ++ toString n
  else if n < 1000 then "0" ++ toString n
  else toString n

/-- `strftime('%Y-%m-%d')` on a date. -/
def dateStr (d : Date) : String :=
  pad4 d.year ++ "-" ++ pad2 d.month ++ "-" ++ pad2 d.day

/-- Append an element to a list unless it is already present: the embedding
of adding to a Python `set` whose iteration order no claim observes. -/
def insertIfAbsent {α : Type} [DecidableEq α] (l : List α) (a : α) : List α :=
  if a ∈ l then l else l ++ [a]

/-- A raw transaction record (`src/agents` dictionaries).  Every field the
source reads through `.get` is optional; `amount` is `none` exactly when the
dictionary holds no amount or a `null` amount. -/
structure Txn where
  txn_id : Option String
  date : Option String
  amount : Option ℚ
  direction : Option String
  type : Option String
  channel : Option String
  counterparty_name : Option String
  counterparty_country : Option String
  memo : Option String
  deriving DecidableEq

/-- The identifier a retained transaction was keyed under (retained
transactions always have one). -/
def keyOf (t : Txn) : String := t.txn_id.getD ""

/-- Recursive worker of the sanitizer loop of `deduplicate_transactions`
(`node1_ingest_enrich.py` lines 268-291): `seen` is the set of identifiers
already accepted; the result is `(retained, duplicates, quarantined)`. -/
def dedupAux (seen : List String) : List Txn → List Txn × Nat × Nat
  | [] => ([], 0, 0)
  | t :: ts =>
    if strFalsy t.txn_id then
      ((dedupAux seen ts).1, (dedupAux seen ts).2.1, (dedupAux seen ts).2.2 + 1)
    else if keyOf t ∈ seen then
      ((dedupAux seen ts).1, (dedupAux seen ts).2.1 + 1, (dedupAux seen ts).2.2)
    else if strFalsy t.date || t.amount.isNone then
      ((dedupAux seen ts).1, (dedupAux seen ts).2.1, (dedupAux seen ts).2.2 + 1)
    else
      ((t :: (dedupAux (keyOf t :: seen) ts).1),
        (dedupAux (keyOf t :: seen) ts).2.1, (dedupAux (keyOf t :: seen) ts).2.2)

/-- The transaction sanitizer `deduplicate_transactions`: returns the
deduplicated list, the duplicate count and the quarantined count. -/
def deduplicate_transactions (transactions : List Txn) : List Txn × Nat × Nat :=
  dedupAux [] transactions

theorem strFalsy_eq_false_iff (o : Option String) :
    strFalsy o = false ↔ ∃ s, o = some s ∧ s ≠ "" := by
  cases o with
  | none => simp [strFalsy]
  | some s => simp [strFalsy]

/-- Invariant of the sanitizer loop: the three counters partition the input,
every retained transaction passes all validity checks and carries an
identifier outside `seen`, and retained identifiers are pairwise distinct. -/
theorem dedupAux_spec (ts : List Txn) : ∀ seen : List String,
    ((dedupAux seen ts).1.length + (dedupAux seen ts).2.1 + (dedupAux seen ts).2.2
        = ts.length)
    ∧ (∀ t ∈ (dedupAux seen ts).1,
        strFalsy t.txn_id = false ∧ strFalsy t.date = false ∧ t.amount ≠ none
          ∧ keyOf t ∉ seen)
    ∧ ((dedupAux seen ts).1.map keyOf).Nodup := by
  induction ts with
  | nil =>
    intro seen
    simp [dedupAux]
  | cons t ts ih =>
    intro seen
    simp only [dedupAux]
    split_ifs with h1 h2 h3
    · obtain ⟨hl, hmem, hnd⟩ := ih seen
      refine ⟨?_, hmem, hnd⟩
      show (dedupAux seen ts).1.length + (dedupAux seen ts).2.1
        + ((dedupAux seen ts).2.2 + 1) = ts.length + 1
      omega
    · obtain ⟨hl, hmem, hnd⟩ := ih seen
      refine ⟨?_, hmem, hnd⟩
      show (dedupAux seen ts).1.length + ((dedupAux seen ts).2.1 + 1)
        + (dedupAux seen ts).2.2 = ts.length + 1
      omega
    · obtain ⟨hl, hmem, hnd⟩ := ih seen
      refine ⟨?_, hmem, hnd⟩
      show (dedupAux seen ts).1.length + (dedupAux seen ts).2.1
        + ((dedupAux seen ts).2.2 + 1) = ts.length + 1
      omega
    · obtain ⟨hl, hmem, hnd⟩ := ih (keyOf t :: seen)
      simp only [Bool.not_eq_true] at h1
      simp only [Bool.or_eq_true, not_or, Bool.not_eq_true,
        Option.isNone_iff_eq_none] at h3
      refine ⟨?_, ?_, ?_⟩
      · show (t :: (dedupAux (keyOf t :: seen) ts).1).length
          + (dedupAux (keyOf t :: seen) ts).2.1
          + (dedupAux (keyOf t :: seen) ts).2.2 = ts.length + 1
        simp only [List.length_cons]
        omega
      · intro u hu
        rcases List.mem_cons.mp hu with hu | hu
        · subst hu
          exact ⟨h1, h3.1, h3.2, h2⟩
        · obtain ⟨hg1, hg2, hg3, hg4⟩ := hmem u hu
          exact ⟨hg1, hg2, hg3, fun hc => hg4 (List.mem_cons_of_mem _ hc)⟩
      · show ((t :: (dedupAux (keyOf t :: seen) ts).1).map keyOf).Nodup
        simp only [List.map_cons, List.nodup_cons]
        refine ⟨?_, hnd⟩
        intro hc
        rcases List.mem_map.mp hc with ⟨u, hu, hku⟩
        exact (hmem u hu).2.2.2 (by simp [hku])

/-- On an input whose elements all pass the validity checks, carry
identifiers outside `seen`, and have pairwise distinct identifiers, the
sanitizer loop is the identity with zero counters. -/
theorem dedupAux_noop (ts : List Txn) : ∀ seen : List String,
    (∀ t ∈ ts,
      strFalsy t.txn_id = false ∧ strFalsy t.date = false ∧ t.amount ≠ none
        ∧ keyOf t ∉ seen) →
    (ts.map keyOf).Nodup →
    dedupAux seen ts = (ts, 0, 0) := by
  induction ts with
  | nil =>
    intro seen _ _
    simp [dedupAux]
  | cons t ts ih =>
    intro seen hgood hnd
    obtain ⟨h1, h2, h3, h4⟩ := hgood t (List.mem_cons_self t ts)
    have hrec : dedupAux (keyOf t :: seen) ts = (ts, 0, 0) := by
      apply ih
      · intro u hu
        obtain ⟨g1, g2, g3, g4⟩ := hgood u (List.mem_cons_of_mem _ hu)
        refine ⟨g1, g2, g3, ?_⟩
        intro hc
        rcases List.mem_cons.mp hc with hc | hc
        · have hm : keyOf t ∈ ts.map keyOf := List.mem_map.mpr ⟨u, hu, hc⟩
          exact (List.nodup_cons.mp (by simpa using hnd)).1 hm
        · exact g4 hc
      · exact (List.nodup_cons.mp (by simpa using hnd)).2
    have hcond : (strFalsy t.date || t.amount.isNone) = false := by
      simp [h2, h3, Option.ne_none_iff_isSome.mp h3]
    simp only [dedupAux]
    rw [if_neg (by simp [h1]), if_neg (by simpa using h4),
      if_neg (by simp [h2, h3, Option.ne_none_iff_isSome.mp h3])]
    simp [hrec]

/-- C4: the transaction sanitizer is idempotent — running it again on the
deduplicated list it produced returns that list unchanged with zero
duplicates and zero quarantines. -/
theorem deduplicate_idempotent (ts : List Txn) :
    deduplicate_transactions (deduplicate_transactions ts).1
      = ((deduplicate_transactions ts).1, 0, 0) := by
  have h := dedupAux_spec ts []
  apply dedupAux_noop
  · intro t ht
    obtain ⟨g1, g2, g3, _⟩ := h.2.1 t ht
    exact ⟨g1, g2, g3, by simp⟩
  · exact h.2.2

/-- C10: the sanitizer's outputs partition its input — retained count plus
duplicate count plus quarantined count equals the input length — and every
retained transaction has a non-empty identifier, a non-empty date, and a
non-null amount, with pairwise-distinct identifiers. -/
theorem deduplicate_partition (ts : List Txn) :
    ((deduplicate_transactions ts).1.length + (deduplicate_transactions ts).2.1
        + (deduplicate_transactions ts).2.2 = ts.length)
    ∧ (∀ t ∈ (deduplicate_transactions ts).1,
        (∃ i, t.txn_id = some i ∧ i ≠ "") ∧ (∃ d, t.date = some d ∧ d ≠ "")
          ∧ t.amount ≠ none)
    ∧ ((deduplicate_transactions ts).1.map keyOf).Nodup := by
  have h := dedupAux_spec ts []
  refine ⟨h.1, ?_, h.2.2⟩
  intro t ht
  obtain ⟨g1, g2, g3, _⟩ := h.2.1 t ht
  exact ⟨(strFalsy_eq_false_iff _).mp g1, (strFalsy_eq_false_iff _).mp g2, g3⟩

/-- A well-formed sample transaction used to exercise the sanitizer. -/
def txnA : Txn :=
  ⟨some "T1", some "2024-01-05", some 100, some "inbound", some "wire",
    some "online", some "Acme", some "US", some "invoice"⟩

/-- A second well-formed sample transaction with a distinct identifier. -/
def txnB : Txn :=
  ⟨some "T2", some "2024-01-06", some 50, some "outbound", some "ach",
    some "branch", some "Beta", some "US", none⟩

/-- A malformed sample transaction missing its amount. -/
def txnBad : Txn :=
  ⟨some "T3", some "2024-01-07", none, some "inbound", some "ach",
    some "branch", some "Gamma", some "US", none⟩

/-- Witness for C10: on a concrete input with one duplicate and one
quarantined record, the partition equation instantiates to `2 + 1 + 1 = 4`. -/
theorem deduplicate_partition_witness :
    (deduplicate_transactions [txnA, txnA, txnBad, txnB]).1.length
      + (deduplicate_transactions [txnA, txnA, txnBad, txnB]).2.1
      + (deduplicate_transactions [txnA, txnA, txnBad, txnB]).2.2 = 4 := by
  have h := (deduplicate_partition [txnA, txnA, txnBad, txnB]).1
  simpa using h

/-- Per-month accumulator of the baseline loop (`monthly_stats` entries). -/
structure MonthStat where
  inflow : ℚ
  outflow : ℚ
  count : Nat
  deriving DecidableEq

/-- The grouping key `f"{year}-{month:02d}"`, embedded as the (injectively
equivalent) year–month pair. -/
def monthKeyOf (d : Date) : Int × Int := (d.year, d.month)

/-- Update of the `defaultdict` month table by one transaction: add `amt` to
the month's inflow when `inb` and to its outflow otherwise, and bump its
count, creating the entry if absent. -/
def statsAdd : List ((Int × Int) × MonthStat) → (Int × Int) → ℚ → Bool →
    List ((Int × Int) × MonthStat)
  | [], k, amt, inb =>
    [(k, ⟨if inb then amt else 0, if inb then 0 else amt, 1⟩)]
  | (k', st) :: rest, k, amt, inb =>
    if k' = k then
      (k', ⟨st.inflow + (if inb then amt else 0),
            st.outflow + (if inb then 0 else amt), st.count + 1⟩) :: rest
    else (k', st) :: statsAdd rest k amt inb

/-- Accumulator of the baseline loop's local variables. -/
structure BAcc where
  stats : List ((Int × Int) × MonthStat)
  cps : List String
  geos : List String
  chans : List String
  maxTxn : ℚ
  startD : Option Date
  endD : Option Date

/-- Add an optional string to a usual-set when it is truthy
(`if t.get(field): set.add(...)`). -/
def updIfTruthy (l : List String) (o : Option String) : List String :=
  match o with
  | none => l
  | some s => if s = "" then l else insertIfAbsent l s

/-- One iteration of the baseline loop of `compute_behavioral_baseline`
(`node1_ingest_enrich.py` lines 52-77) over a pre-alert transaction paired
with its parsed date. -/
def baselineStep (acc : BAcc) (p : Txn × Date) : BAcc :=
  let t := p.1
  let d := p.2
  let startD := match acc.startD with
    | none => some d
    | some s => if dateLt d s then some d else some s
  let endD := match acc.endD with
    | none => some d
    | some e => if dateLt e d then some d else some e
  let amount := t.amount.getD 0
  let maxTxn := if acc.maxTxn < amount then amount else acc.maxTxn
  { stats := statsAdd acc.stats (monthKeyOf d) amount
      (t.direction == some "inbound")
    cps := updIfTruthy acc.cps t.counterparty_name
    geos := updIfTruthy acc.geos t.counterparty_country
    chans := updIfTruthy acc.chans t.channel
    maxTxn := maxTxn
    startD := startD
    endD := endD }

/-- The pre-alert transactions (`baseline_txns`) paired with their parsed
dates: records whose date is missing or unparseable are skipped
(`except (ValueError, KeyError): continue`), and a record is kept exactly
when its date is strictly before the alert's calendar month. -/
def baselinePairs (transactions : List Txn) (alertDate : Date) :
    List (Txn × Date) :=
  transactions.filterMap (fun t =>
    match t.date with
    | none => none
    | some s =>
      match parseDate s with
      | none => none
      | some d =>
        if d.year < alertDate.year
            ∨ (d.year = alertDate.year ∧ d.month < alertDate.month) then
          some (t, d)
        else none)

/-- The behavioral-baseline record returned by
`compute_behavioral_baseline`. -/
structure Baseline where
  avg_monthly_inflow : ℚ
  avg_monthly_outflow : ℚ
  avg_txn_count_per_month : Nat
  usual_counterparties : List String
  usual_geographies : List String
  usual_channels : List String
  baseline_period : String
  max_single_txn : ℚ
  deriving DecidableEq

/-- The zero-valued degenerate baseline returned when no pre-alert
transaction exists. -/
def emptyBaseline : Baseline := ⟨0, 0, 0, [], [], [], "No baseline data", 0⟩

/-- Total inflow over the month table. -/
def sumInflow (s : List ((Int × Int) × MonthStat)) : ℚ :=
  (s.map (fun p => p.2.inflow)).sum

/-- Total outflow over the month table. -/
def sumOutflow (s : List ((Int × Int) × MonthStat)) : ℚ :=
  (s.map (fun p => p.2.outflow)).sum

/-- Total transaction count over the month table. -/
def sumCount (s : List ((Int × Int) × MonthStat)) : Nat :=
  (s.map (fun p => p.2.count)).sum

/-- Embedding of `compute_behavioral_baseline` (`node1_ingest_enrich.py`
lines 5-98).  The `now` argument stands for `datetime.now()`, used only when
the alert timestamp does not parse. -/
def compute_behavioral_baseline (transactions : List Txn)
    (alert_date_str : String) (now : Date) : Baseline :=
  let alert_date := (parseDate alert_date_str).getD now
  let pairs := baselinePairs transactions alert_date
  if pairs = [] then emptyBaseline
  else
    let acc := pairs.foldl baselineStep ⟨[], [], [], [], 0, none, none⟩
    let num_months : Nat := if acc.stats = [] then 1 else acc.stats.length
    let period_str :=
      match acc.startD, acc.endD with
      | some s, some e => dateStr s ++ " to " ++ dateStr e
      | _, _ => ""
    { avg_monthly_inflow := pyRound (sumInflow acc.stats / num_months) 2
      avg_monthly_outflow := pyRound (sumOutflow acc.stats / num_months) 2
      avg_txn_count_per_month := sumCount acc.stats / num_months
      usual_counterparties := acc.cps
      usual_geographies := acc.geos
      usual_channels := acc.chans
      baseline_period := period_str
      max_single_txn := acc.maxTxn }

/-- Total inbound amount over a list of pre-alert pairs (the claim-side
reading of "total pre-alert inbound amount"). -/
def inboundTotal (ps : List (Txn × Date)) : ℚ :=
  (ps.map (fun p =>
    if p.1.direction == some "inbound" then p.1.amount.getD 0 else 0)).sum

/-- Total outbound amount over a list of pre-alert pairs (amounts of
transactions whose direction is not `"inbound"`). -/
def outboundTotal (ps : List (Txn × Date)) : ℚ :=
  (ps.map (fun p =>
    if p.1.direction == some "inbound" then 0 else p.1.amount.getD 0)).sum

/-- The month keys of a list of pre-alert pairs. -/
def monthKeys (ps : List (Txn × Date)) : List (Int × Int) :=
  ps.map (fun p => monthKeyOf p.2)

/-- Number of distinct calendar months present among pre-alert pairs. -/
def distinctMonthCount (ps : List (Txn × Date)) : Nat :=
  (monthKeys ps).toFinset.card

theorem statsAdd_sumInflow (s : List ((Int × Int) × MonthStat))
    (k : Int × Int) (amt : ℚ) (inb : Bool) :
    sumInflow (statsAdd s k amt inb) = sumInflow s + (if inb then amt else 0) := by
  induction s with
  | nil => cases inb <;> simp [statsAdd, sumInflow]
  | cons p rest ih =>
    obtain ⟨k', st⟩ := p
    by_cases h : k' = k
    · subst h
      simp only [statsAdd, eq_self_iff_true, if_true]
      simp only [sumInflow, List.map_cons, List.sum_cons]
      ring
    · simp only [statsAdd, if_neg h, sumInflow, List.map_cons, List.sum_cons]
          at ih ⊢
      rw [ih]
      ring

theorem statsAdd_sumOutflow (s : List ((Int × Int) × MonthStat))
    (k : Int × Int) (amt : ℚ) (inb : Bool) :
    sumOutflow (statsAdd s k amt inb)
      = sumOutflow s + (if inb then 0 else amt) := by
  induction s with
  | nil => cases inb <;> simp [statsAdd, sumOutflow]
  | cons p rest ih =>
    obtain ⟨k', st⟩ := p
    by_cases h : k' = k
    · subst h
      simp only [statsAdd, eq_self_iff_true, if_true]
      simp only [sumOutflow, List.map_cons, List.sum_cons]
      ring
    · simp only [statsAdd, if_neg h, sumOutflow, List.map_cons, List.sum_cons]
          at ih ⊢
      rw [ih]
      ring

theorem statsAdd_sumCount (s : List ((Int × Int) × MonthStat))
    (k : Int × Int) (amt : ℚ) (inb : Bool) :
    sumCount (statsAdd s k amt inb) = sumCount s + 1 := by
  induction s with
  | nil => simp [statsAdd, sumCount]
  | cons p rest ih =>
    obtain ⟨k', st⟩ := p
    by_cases h : k' = k
    · subst h
      simp only [statsAdd, eq_self_iff_true, if_true]
      simp only [sumCount, List.map_cons, List.sum_cons]
      omega
    · simp only [statsAdd, if_neg h, sumCount, List.map_cons, List.sum_cons]
          at ih ⊢
      omega

theorem statsAdd_keys (s : List ((Int × Int) × MonthStat))
    (k : Int × Int) (amt : ℚ) (inb : Bool) :
    (statsAdd s k amt inb).map Prod.fst
      = insertIfAbsent (s.map Prod.fst) k := by
  induction s with
  | nil => simp [statsAdd, insertIfAbsent]
  | cons p rest ih =>
    obtain ⟨k', st⟩ := p
    by_cases h : k' = k
    · subst h
      simp [statsAdd, insertIfAbsent]
    · simp only [statsAdd, if_neg h, List.map_cons, ih, insertIfAbsent,
        List.mem_cons]
      have hne : ¬ k = k' := fun hc => h hc.symm
      by_cases hk : k ∈ rest.map Prod.fst
      · simp [hk, hne]
      · simp [hk, hne]

theorem baselineStep_stats (acc : BAcc) (p : Txn × Date) :
    (baselineStep acc p).stats
      = statsAdd acc.stats (monthKeyOf p.2) (p.1.amount.getD 0)
          (p.1.direction == some "inbound") := rfl

theorem foldl_stats_sumInflow (ps : List (Txn × Date)) : ∀ acc : BAcc,
    sumInflow ((ps.foldl baselineStep acc).stats)
      = sumInflow acc.stats + inboundTotal ps := by
  induction ps with
  | nil =>
    intro acc
    simp [inboundTotal]
  | cons p ps ih =>
    intro acc
    simp only [List.foldl_cons]
    rw [ih (baselineStep acc p), baselineStep_stats, statsAdd_sumInflow]
    simp only [inboundTotal, List.map_cons, List.sum_cons]
    ring

theorem foldl_stats_sumOutflow (ps : List (Txn × Date)) : ∀ acc : BAcc,
    sumOutflow ((ps.foldl baselineStep acc).stats)
      = sumOutflow acc.stats + outboundTotal ps := by
  induction ps with
  | nil =>
    intro acc
    simp [outboundTotal]
  | cons p ps ih =>
    intro acc
    simp only [List.foldl_cons]
    rw [ih (baselineStep acc p), baselineStep_stats, statsAdd_sumOutflow]
    simp only [outboundTotal, List.map_cons, List.sum_cons]
    ring

theorem foldl_stats_sumCount (ps : List (Txn × Date)) : ∀ acc : BAcc,
    sumCount ((ps.foldl baselineStep acc).stats)
      = sumCount acc.stats + ps.length := by
  induction ps with
  | nil =>
    intro acc
    simp
  | cons p ps ih =>
    intro acc
    simp only [List.foldl_cons]
    rw [ih (baselineStep acc p), baselineStep_stats, statsAdd_sumCount]
    simp only [List.length_cons]
    omega

theorem foldl_stats_keys (ps : List (Txn × Date)) : ∀ acc : BAcc,
    ((ps.foldl baselineStep acc).stats).map Prod.fst
      = (monthKeys ps).foldl insertIfAbsent (acc.stats.map Prod.fst) := by
  induction ps with
  | nil =>
    intro acc
    simp [monthKeys]
  | cons p ps ih =>
    intro acc
    simp only [List.foldl_cons, monthKeys, List.map_cons]
    rw [ih (baselineStep acc p), baselineStep_stats, statsAdd_keys]
    rfl

theorem insertIfAbsent_toFinset {α : Type} [DecidableEq α] (l : List α)
    (a : α) : (insertIfAbsent l a).toFinset = insert a l.toFinset := by
  simp only [insertIfAbsent]
  split_ifs with h
  · rw [Finset.insert_eq_self.mpr (List.mem_toFinset.mpr h)]
  · ext x
    simp [or_comm]

theorem insertIfAbsent_nodup {α : Type} [DecidableEq α] (l : List α) (a : α)
    (h : l.Nodup) : (insertIfAbsent l a).Nodup := by
  simp only [insertIfAbsent]
  split_ifs with hm
  · exact h
  · simp [List.nodup_append, h, hm]

theorem foldl_insertIfAbsent_toFinset {α : Type} [DecidableEq α]
    (ks : List α) : ∀ init : List α,
    (ks.foldl insertIfAbsent init).toFinset = init.toFinset ∪ ks.toFinset := by
  induction ks with
  | nil =>
    intro init
    simp
  | cons k ks ih =>
    intro init
    simp only [List.foldl_cons, ih, insertIfAbsent_toFinset,
      List.toFinset_cons]
    ext x
    simp

theorem foldl_insertIfAbsent_nodup {α : Type} [DecidableEq α]
    (ks : List α) : ∀ init : List α, init.Nodup →
    (ks.foldl insertIfAbsent init).Nodup := by
  induction ks with
  | nil =>
    intro init h
    exact h
  | cons k ks ih =>
    intro init h
    exact ih _ (insertIfAbsent_nodup _ _ h)

/-- C5 (amended): whenever at least one parseable-dated transaction lies
strictly before the alert's calendar month, the baseline's average monthly
inflow equals the total pre-alert inbound amount divided by the number of
distinct calendar months present, rounded to two decimal places (the source
applies `round(_, 2)`); likewise for outflow, and the monthly
transaction-count average is the integer-truncated quotient.  When no such
transaction exists every baseline value is zero and the record carries the
explicit `"No baseline data"` marker. -/
theorem baseline_avg_rounded (txns : List Txn) (s : String) (d now : Date)
    (hparse : parseDate s = some d) :
    (baselinePairs txns d ≠ [] →
      (compute_behavioral_baseline txns s now).avg_monthly_inflow
          = pyRound (inboundTotal (baselinePairs txns d)
              / (distinctMonthCount (baselinePairs txns d) : ℚ)) 2
        ∧ (compute_behavioral_baseline txns s now).avg_monthly_outflow
          = pyRound (outboundTotal (baselinePairs txns d)
              / (distinctMonthCount (baselinePairs txns d) : ℚ)) 2
        ∧ (compute_behavioral_baseline txns s now).avg_txn_count_per_month
          = (baselinePairs txns d).length
              / distinctMonthCount (baselinePairs txns d))
    ∧ (baselinePairs txns d = [] →
        compute_behavioral_baseline txns s now = emptyBaseline) := by
  have halert : (parseDate s).getD now = d := by rw [hparse]; rfl
  constructor
  · intro hne
    have hsumin : sumInflow (((baselinePairs txns d).foldl baselineStep
        ⟨[], [], [], [], 0, none, none⟩).stats)
        = inboundTotal (baselinePairs txns d) := by
      have h := foldl_stats_sumInflow (baselinePairs txns d)
        ⟨[], [], [], [], 0, none, none⟩
      simpa [sumInflow] using h
    have hsumout : sumOutflow (((baselinePairs txns d).foldl baselineStep
        ⟨[], [], [], [], 0, none, none⟩).stats)
        = outboundTotal (baselinePairs txns d) := by
      have h := foldl_stats_sumOutflow (baselinePairs txns d)
        ⟨[], [], [], [], 0, none, none⟩
      simpa [sumOutflow] using h
    have hsumcnt : sumCount (((baselinePairs txns d).foldl baselineStep
        ⟨[], [], [], [], 0, none, none⟩).stats)
        = (baselinePairs txns d).length := by
      have h := foldl_stats_sumCount (baselinePairs txns d)
        ⟨[], [], [], [], 0, none, none⟩
      simpa [sumCount] using h
    have hk : (((baselinePairs txns d).foldl baselineStep
        ⟨[], [], [], [], 0, none, none⟩).stats).map Prod.fst
        = (monthKeys (baselinePairs txns d)).foldl insertIfAbsent [] := by
      simpa using foldl_stats_keys (baselinePairs txns d)
        ⟨[], [], [], [], 0, none, none⟩
    have hnodup : ((((baselinePairs txns d).foldl baselineStep
        ⟨[], [], [], [], 0, none, none⟩).stats).map Prod.fst).Nodup := by
      rw [hk]
      exact foldl_insertIfAbsent_nodup _ [] List.nodup_nil
    have hfins : ((((baselinePairs txns d).foldl baselineStep
        ⟨[], [], [], [], 0, none, none⟩).stats).map Prod.fst).toFinset
        = (monthKeys (baselinePairs txns d)).toFinset := by
      rw [hk]
      simpa using foldl_insertIfAbsent_toFinset
        (monthKeys (baselinePairs txns d)) []
    have hlen : ((baselinePairs txns d).foldl baselineStep
        ⟨[], [], [], [], 0, none, none⟩).stats.length
        = distinctMonthCount (baselinePairs txns d) := by
      have h1 := List.length_map (((baselinePairs txns d).foldl baselineStep
        ⟨[], [], [], [], 0, none, none⟩).stats) Prod.fst
      have h2 := List.toFinset_card_of_nodup hnodup
      rw [hfins] at h2
      unfold distinctMonthCount
      omega
    have hdm : distinctMonthCount (baselinePairs txns d) ≠ 0 := by
      obtain ⟨p, ps, hP⟩ := List.exists_cons_of_ne_nil hne
      have hmem : monthKeyOf p.2
          ∈ (monthKeys (baselinePairs txns d)).toFinset := by
        rw [hP]
        simp [monthKeys]
      exact Finset.card_ne_zero_of_mem hmem
    have hstats_ne : ((baselinePairs txns d).foldl baselineStep
        ⟨[], [], [], [], 0, none, none⟩).stats ≠ [] := by
      intro hc
      apply hdm
      rw [← hlen, hc]
      rfl
    simp only [compute_behavioral_baseline, halert]
    rw [if_neg hne, if_neg hstats_ne]
    refine ⟨?_, ?_, ?_⟩
    · dsimp only
      rw [hsumin, hlen]
    · dsimp only
      rw [hsumout, hlen]
    · dsimp only
      rw [hsumcnt, hlen]
  · intro hemp
    simp only [compute_behavioral_baseline, halert]
    rw [if_pos hemp]

/-- Sample inbound transaction constructor for baseline scenarios. -/
def bTxn (i ds : String) (amt : ℚ) : Txn :=
  ⟨some i, some ds, some amt, some "inbound", none, none, none, none, none⟩

/-- Three inbound transactions over three distinct pre-alert months with
total amount 1. -/
def txnsC5 : List Txn :=
  [bTxn "a" "2023-01-05" 1, bTxn "b" "2023-02-05" 0, bTxn "c" "2023-03-05" 0]

/-- Alert date of the baseline scenario. -/
def alertDateC5 : Date := ⟨2023, 6, 1⟩

/-- An arbitrary reference date standing for the wall clock. -/
def nowD : Date := ⟨2025, 1, 1⟩

/-- C5 counterexample: on three pre-alert inbound transactions with total
amount 1 spread over three distinct months, the stored average monthly
inflow is `round(1/3, 2) = 0.33`, which differs from the exact quotient
`1/3` of total pre-alert inbound amount by distinct-month count that the
claim asserts. -/
theorem baseline_avg_unrounded_counterexample :
    baselinePairs txnsC5 alertDateC5 ≠ []
    ∧ parseDate "2023-06-01" = some alertDateC5
    ∧ (compute_behavioral_baseline txnsC5 "2023-06-01" nowD).avg_monthly_inflow
        ≠ inboundTotal (baselinePairs txnsC5 alertDateC5)
            / (distinctMonthCount (baselinePairs txnsC5 alertDateC5) : ℚ) := by
  have hparse : parseDate "2023-06-01" = some alertDateC5 := by decide
  have hne : baselinePairs txnsC5 alertDateC5 ≠ [] := by decide
  have hib : inboundTotal (baselinePairs txnsC5 alertDateC5) = 1 := by
    have hpairs : baselinePairs txnsC5 alertDateC5
        = [(bTxn "a" "2023-01-05" 1, ⟨2023, 1, 5⟩),
           (bTxn "b" "2023-02-05" 0, ⟨2023, 2, 5⟩),
           (bTxn "c" "2023-03-05" 0, ⟨2023, 3, 5⟩)] := by decide
    rw [hpairs]
    norm_num [inboundTotal, bTxn]
  have hmc : distinctMonthCount (baselinePairs txnsC5 alertDateC5) = 3 := by
    decide
  have havg :=
    ((baseline_avg_rounded txnsC5 "2023-06-01" alertDateC5 nowD hparse).1 hne).1
  refine ⟨hne, hparse, ?_⟩
  rw [havg, hib, hmc]
  norm_num [pyRound, roundHalfToEven]

/-- Witness for the amended C5 theorem at the concrete baseline scenario. -/
theorem baseline_avg_rounded_witness :
    (compute_behavioral_baseline txnsC5 "2023-06-01" nowD).avg_monthly_inflow
      = pyRound (inboundTotal (baselinePairs txnsC5 alertDateC5)
          / (distinctMonthCount (baselinePairs txnsC5 alertDateC5) : ℚ)) 2 :=
  ((baseline_avg_rounded txnsC5 "2023-06-01" alertDateC5 nowD (by decide)).1
    (by decide)).1

/-- Parsed date of a transaction, if its date field is present and
parseable. -/
def txnParsedDate (t : Txn) : Option Date :=
  match t.date with
  | none => none
  | some s => parseDate s

/-- The flagged transactions: those whose identifier occurs among the
alert's flagged identifiers.  (The source indexes `t["txn_id"]` directly;
it is only called on sanitized transactions, which always carry one, so a
missing identifier is embedded as not-flagged.) -/
def flaggedTxns (transactions : List Txn) (flagged_ids : List String) :
    List Txn :=
  transactions.filter (fun t =>
    match t.txn_id with
    | some tid => tid ∈ flagged_ids
    | none => false)

/-- Sum of amounts of flagged inbound transactions. -/
def flaggedInflow (transactions : List Txn) (flagged_ids : List String) : ℚ :=
  (((flaggedTxns transactions flagged_ids).filter
    (fun t => t.direction == some "inbound")).map
      (fun t => t.amount.getD 0)).sum

/-- Sum of amounts of flagged transactions whose direction is not
`"inbound"`. -/
def flaggedOutflow (transactions : List Txn) (flagged_ids : List String) : ℚ :=
  (((flaggedTxns transactions flagged_ids).filter
    (fun t => !(t.direction == some "inbound"))).map
      (fun t => t.amount.getD 0)).sum

/-- Minimum and maximum parseable flagged dates (the `start_date`/`end_date`
loop with its silent `except: pass`). -/
def dateRangeFold (ts : List Txn) : Option Date × Option Date :=
  ts.foldl (fun acc t =>
    match txnParsedDate t with
    | none => acc
    | some d =>
      (match acc.1 with
       | none => some d
       | some s => if dateLt d s then some d else some s,
       match acc.2 with
       | none => some d
       | some e => if dateLt e d then some d else some e)) (none, none)

/-- Values of an optional field over flagged transactions that are truthy
and absent from the corresponding baseline usual-set. -/
def newSet (flagged : List Txn) (usual : List String)
    (f : Txn → Option String) : List String :=
  flagged.foldl (fun l t =>
    match f t with
    | none => l
    | some s => if s = "" then l else if s ∈ usual then l else insertIfAbsent l s) []

/-- Decimal-style rendering of a rational (presentation only; no claim
depends on the exact notation Python uses for floats). -/
def qRepr (q : ℚ) : String :=
  if q.den = 1 then toString q.num ++ ".0"
  else toString q.num ++ "/" ++ toString q.den

/-- The deviation-analysis record returned by `compute_deviation_analysis`. -/
structure Deviation where
  volume_deviation_factor : ℚ
  velocity_spike : Bool
  new_counterparties_count : Nat
  new_geographies : List String
  new_channels : List String
  deviation_summary : String
  flagged_txn_count : Nat
  deriving DecidableEq

/-- Embedding of `compute_deviation_analysis` (`node1_ingest_enrich.py`
lines 100-184). -/
def compute_deviation_analysis (transactions : List Txn) (baseline : Baseline)
    (flagged_ids : List String) : Deviation :=
  let flagged := flaggedTxns transactions flagged_ids
  let flagged_total_vol :=
    flaggedInflow transactions flagged_ids
      + flaggedOutflow transactions flagged_ids
  let baseline_total_vol :=
    baseline.avg_monthly_inflow + baseline.avg_monthly_outflow
  let volume_deviation_factor :=
    if baseline_total_vol > 0 then
      pyRound (flagged_total_vol / baseline_total_vol) 1
    else if flagged_total_vol > 0 then (999 : ℚ) else 0
  let new_cps := newSet flagged baseline.usual_counterparties
    Txn.counterparty_name
  let new_geos := newSet flagged baseline.usual_geographies
    Txn.counterparty_country
  let new_chans := newSet flagged baseline.usual_channels Txn.channel
  let range := dateRangeFold flagged
  let velocity_spike :=
    match range.1, range.2 with
    | some sd, some ed =>
      let span_days0 := dayNumber ed - dayNumber sd + 1
      let span_days := if span_days0 < 1 then 1 else span_days0
      let expected := ((baseline.avg_txn_count_per_month : ℚ) / 30)
        * (span_days : ℚ)
      decide ((flagged.length : ℚ) > expected * 3 ∧ flagged.length > 5)
    | _, _ => false
  let p1 := if volume_deviation_factor > 2 then
    ["Volume is " ++ qRepr volume_deviation_factor ++ "x baseline"] else []
  let p2 := if velocity_spike then
    ["Significant velocity spike detected"] else []
  let p3 := if new_cps ≠ [] then
    [toString new_cps.length ++ " new counterparties"] else []
  let p4 := if new_geos ≠ [] then
    ["New geographies: " ++ String.intercalate ", " (new_geos.take 3)] else []
  let parts := p1 ++ p2 ++ p3 ++ p4
  { volume_deviation_factor := volume_deviation_factor
    velocity_spike := velocity_spike
    new_counterparties_count := new_cps.length
    new_geographies := new_geos
    new_channels := new_chans
    deviation_summary :=
      if parts = [] then "No significant deviation"
      else String.intercalate "; " parts
    flagged_txn_count := flagged.length }

/-- C3: when the baseline total monthly volume (average monthly inflow plus
average monthly outflow) is zero, the volume-deviation factor is the
sentinel 999.0 if the flagged total volume is positive and exactly 0.0 if
the flagged total volume is also zero; the quotient by the baseline volume
is taken only under the positive-baseline guard, so the zero-baseline case
never divides. -/
theorem volume_deviation_zero_baseline (txns : List Txn) (b : Baseline)
    (fids : List String)
    (h : b.avg_monthly_inflow + b.avg_monthly_outflow = 0) :
    (flaggedInflow txns fids + flaggedOutflow txns fids > 0 →
      (compute_deviation_analysis txns b fids).volume_deviation_factor = 999)
    ∧ (flaggedInflow txns fids + flaggedOutflow txns fids = 0 →
      (compute_deviation_analysis txns b fids).volume_deviation_factor = 0) := by
  have hb : ¬ (b.avg_monthly_inflow + b.avg_monthly_outflow > 0) := by
    rw [h]
    norm_num
  constructor
  · intro hf
    simp only [compute_deviation_analysis]
    rw [if_neg hb, if_pos hf]
  · intro hf
    have hnf : ¬ (flaggedInflow txns fids + flaggedOutflow txns fids > 0) := by
      rw [hf]
      norm_num
    simp only [compute_deviation_analysis]
    rw [if_neg hb, if_neg hnf]

/-- One flagged inbound transaction of amount 5 for the deviation witness. -/
def txW : List Txn := [bTxn "w1" "2024-02-02" 5]

/-- Witness for C3: against the zero-valued empty baseline, a flagged volume
of 5 yields the sentinel factor 999. -/
theorem volume_deviation_zero_baseline_witness :
    (compute_deviation_analysis txW emptyBaseline ["w1"]).volume_deviation_factor
      = 999 :=
  (volume_deviation_zero_baseline txW emptyBaseline ["w1"]
    (by norm_num [emptyBaseline])).1
    (by norm_num [flaggedInflow, flaggedOutflow, flaggedTxns, txW, bTxn])

/-- An itemized risk factor `(factor, source, severity, detail)`. -/
structure RiskFactor where
  factor : String
  source : String
  severity : String
  detail : String
  deriving DecidableEq

/-- The risk-intelligence block of a case.  Prior-SAR records are modeled
opaquely as strings (only their presence and count are read by the scored
logic; the detail text built from a prior SAR's `dcn` is abbreviated to the
generic fallback the source also uses). -/
structure RiskIntel where
  sanctions_hits : List String
  pep_status : Bool
  adverse_media_hits : List String
  prior_sars : List String
  law_enforcement_requests : Nat
  internal_referrals : List String
  deriving DecidableEq

/-- The empty dictionary a missing risk-intelligence block defaults to. -/
def emptyRiskIntel : RiskIntel := ⟨[], false, [], [], 0, []⟩

/-- The credit-profile block of a case. -/
structure CreditProfile where
  payment_history : Option String
  credit_card_utilization : Option ℚ
  deriving DecidableEq

/-- The customer-profile block of a case. -/
structure CustomerProfile where
  customer_id : Option String
  name : Option String
  employer : Option String
  occupation : Option String
  annual_income : ℚ
  account_opened_date : Option String
  risk_rating : Option String
  customer_risk_rating : Option String
  deriving DecidableEq

/-- The alert block of a case. -/
structure Alert where
  alert_id : Option String
  alert_type : Option String
  type : Option String
  risk_score : ℚ
  generated_at : Option String
  flagged_transaction_ids : List String
  jurisdiction : Option String
  account_ids : List String
  deriving DecidableEq

/-- A full case input: one alert, one customer profile, the transaction
history, and the optional credit / risk-intelligence / notes blocks. -/
structure CaseInput where
  alert : Alert
  customer_profile : CustomerProfile
  transaction_history : List Txn
  credit_profile : Option CreditProfile
  risk_intelligence : Option RiskIntel
  investigator_notes : Option String
  deriving DecidableEq

/-- `case_input.get("risk_intelligence") or {}`. -/
def riskIntelOf (c : CaseInput) : RiskIntel :=
  c.risk_intelligence.getD emptyRiskIntel

/-- `case_input.get("credit_profile") or {}`. -/
def creditOf (c : CaseInput) : CreditProfile :=
  c.credit_profile.getD ⟨none, none⟩

/-- Signals 1-8 of `compute_cross_source_risk` (`node1_ingest_enrich.py`
lines 199-244), in source order: sanctions (+40), PEP (+15), adverse media
(+10), prior SARs (+20), law-enforcement requests (+15), credit
deterioration (+5), high utilization (+3), internal referrals (+10). -/
def crossPre (c : CaseInput) : ℚ :=
  (if (riskIntelOf c).sanctions_hits ≠ [] then (40 : ℚ) else 0)
  + (if (riskIntelOf c).pep_status then (15 : ℚ) else 0)
  + (if (riskIntelOf c).adverse_media_hits ≠ [] then (10 : ℚ) else 0)
  + (if (riskIntelOf c).prior_sars ≠ [] then (20 : ℚ) else 0)
  + (if (riskIntelOf c).law_enforcement_requests > 0 then (15 : ℚ) else 0)
  + (if ((creditOf c).payment_history.getD "current") ≠ ""
        ∧ ((creditOf c).payment_history.getD "current") ≠ "current"
      then (5 : ℚ) else 0)
  + (match (creditOf c).credit_card_utilization with
     | some u => if u ≠ 0 ∧ u > 0.80 then (3 : ℚ) else 0
     | none => 0)
  + (if (riskIntelOf c).internal_referrals ≠ [] then (10 : ℚ) else 0)

/-- Signal 9: the alert's own risk score contributes 15% of itself when
positive. -/
def crossAlertTerm (c : CaseInput) : ℚ :=
  if c.alert.risk_score > 0 then c.alert.risk_score * 0.15 else 0

/-- Signal 10: +5 when investigator notes are present (truthy). -/
def crossNotesTerm (c : CaseInput) : ℚ :=
  if strFalsy c.investigator_notes = false then 5 else 0

/-- Signal 11: +8 when either customer risk-rating field is `"High"`. -/
def crossRatingTerm (c : CaseInput) : ℚ :=
  if c.customer_profile.risk_rating = some "High"
      ∨ c.customer_profile.customer_risk_rating = some "High"
  then 8 else 0

/-- The raw additive cross-source score before the final cap, summed in
source order. -/
def crossRaw (c : CaseInput) : ℚ :=
  crossPre c + crossAlertTerm c + crossNotesTerm c + crossRatingTerm c

/-- The itemized factor list of `compute_cross_source_risk` (every triggered
signal except the alert-risk contribution, which the source leaves
commented out). -/
def crossFactors (c : CaseInput) : List RiskFactor :=
  (if (riskIntelOf c).sanctions_hits ≠ [] then
    [⟨"Sanctions Hit", "Risk Intel", "high",
      "Hits: " ++ toString (riskIntelOf c).sanctions_hits.length⟩] else [])
  ++ (if (riskIntelOf c).pep_status then
    [⟨"PEP Status", "Risk Intel", "high", "Subject is PEP"⟩] else [])
  ++ (if (riskIntelOf c).adverse_media_hits ≠ [] then
    [⟨"Adverse Media", "Risk Intel", "medium",
      "Hits: " ++ toString (riskIntelOf c).adverse_media_hits.length⟩] else [])
  ++ (if (riskIntelOf c).prior_sars ≠ [] then
    [⟨"Prior SARs", "Risk Intel", "high", "Prior SAR history found"⟩] else [])
  ++ (if (riskIntelOf c).law_enforcement_requests > 0 then
    [⟨"LE Request", "Risk Intel", "high",
      "Law enforcement inquiry on file"⟩] else [])
  ++ (if ((creditOf c).payment_history.getD "current") ≠ ""
        ∧ ((creditOf c).payment_history.getD "current") ≠ "current" then
    [⟨"Credit Deterioration", "Credit Bureau", "low",
      "Status: " ++ ((creditOf c).payment_history.getD "current")⟩] else [])
  ++ (match (creditOf c).credit_card_utilization with
     | some u => if u ≠ 0 ∧ u > 0.80 then
        [⟨"High Utilization", "Credit Bureau", "low",
          "Utilization: " ++ qRepr u⟩] else []
     | none => [])
  ++ (if (riskIntelOf c).internal_referrals ≠ [] then
    [⟨"Internal Referral", "Internal", "medium", "Referral on file"⟩] else [])
  ++ (if strFalsy c.investigator_notes = false then
    [⟨"Investigator Notes", "Human", "medium", "Manual notes present"⟩] else [])
  ++ (if c.customer_profile.risk_rating = some "High"
        ∨ c.customer_profile.customer_risk_rating = some "High" then
    [⟨"High Risk Customer", "KYC", "medium", "Rated High"⟩] else [])

/-- Embedding of `compute_cross_source_risk`: the additive score capped at
100 together with the factor list. -/
def compute_cross_source_risk (c : CaseInput) : ℚ × List RiskFactor :=
  (min (crossRaw c) 100, crossFactors c)

/-- Core of the behavioral anomaly scorer as a function of the
deviation-analysis block the dossier carries (`node2_triage_classify.py`
lines 101-165). -/
def anomalyScoreOfDeviation (now : Date) (c : CaseInput)
    (deviation : Deviation) : ℚ :=
  let vol_dev := deviation.volume_deviation_factor
  let s1 : ℚ :=
    if vol_dev > 8 then 30 else if vol_dev > 5 then 25
    else if vol_dev > 3 then 20 else if vol_dev > 2 then 15
    else if vol_dev > 1.5 then 8 else 0
  let new_cps := deviation.new_counterparties_count
  let s2 : ℚ :=
    if new_cps > 20 then 20 else if new_cps > 10 then 15
    else if new_cps > 5 then 10 else if new_cps > 2 then 5 else 0
  let s3 : ℚ := if deviation.velocity_spike then 15 else 0
  let s4 : ℚ :=
    if deviation.new_geographies.any
        (fun g => g ∈ ["AE", "KY", "PA", "BZ", "VG", "BS", "LR"]) then 10
    else if deviation.new_geographies ≠ [] then 5 else 0
  let s5 : ℚ :=
    match c.customer_profile.account_opened_date with
    | none => 0
    | some os =>
      if os = "" then 0
      else
        match parseDate10 os,
          (match c.alert.generated_at with
           | none => some now
           | some s => parseDate s) with
        | some od, some ad =>
          let age_days := dayNumber ad - dayNumber od
          if age_days < 90 then 10 else if age_days < 180 then 7
          else if age_days < 365 then 3 else 0
        | _, _ => 0
  let income := c.customer_profile.annual_income
  let flagged_vol := ((flaggedTxns c.transaction_history
    c.alert.flagged_transaction_ids).map (fun t => t.amount.getD 0)).sum
  let s6 : ℚ :=
    if income > 0 then
      let ratio := flagged_vol / income
      if ratio > 5 then 15 else if ratio > 2 then 10
      else if ratio > 1 then 5 else 0
    else if flagged_vol > 100000 then 15 else 0
  min (s1 + s2 + s3 + s4 + s5 + s6) 100

/-- The dossier produced by the ingest/enrich stage (wall-clock timestamp
field omitted; no claim reads it). -/
structure Dossier where
  unified_alert_id : Option String
  customer_id : Option String
  customer_name : Option String
  account_ids : List String
  jurisdiction : String
  behavioral_baseline : Baseline
  deviation_analysis : Deviation
  cross_source_risk_score : ℚ
  risk_factors : List RiskFactor
  has_prior_sars : Bool
  prior_sar_count : Nat
  is_pep : Bool
  has_sanctions_hits : Bool
  has_adverse_media : Bool
  sources_consulted : List String
  data_quality_score : ℚ
  transactions_validated : Nat
  transactions_quarantined : Nat
  duplicates_removed : Nat
  deriving DecidableEq

/-- Embedding of `compute_behavioral_anomaly_score(case_input, dossier)`:
the dossier is consulted only through its deviation-analysis block. -/
def compute_behavioral_anomaly_score (now : Date) (c : CaseInput)
    (dossier : Dossier) : ℚ :=
  anomalyScoreOfDeviation now c dossier.deviation_analysis

/-- The year `_get_year` extracts from a transaction's date, with the
source's sentinel 0 on a missing or unparseable date. -/
def pyGetYear (t : Txn) : Int :=
  match txnParsedDate t with
  | some d => d.year
  | none => 0

/-- The month `_get_month` extracts from a transaction's date, with the
source's sentinel 0 on a missing or unparseable date. -/
def pyGetMonth (t : Txn) : Int :=
  match txnParsedDate t with
  | some d => d.month
  | none => 0

/-- The salary/payroll exception SAL-001 (`node2_triage_classify.py` lines
37-54): exactly one flagged transaction, a non-empty declared employer
contained in its counterparty name, a payroll keyword in its memo, and the
same counterparty occurring among the other transactions. -/
def salaryRuleApplies (c : CaseInput) : Bool :=
  match c.alert.flagged_transaction_ids with
  | [fid] =>
    (match c.transaction_history.find? (fun t => t.txn_id == some fid) with
     | some ft =>
       let employer := (c.customer_profile.employer.getD "").toLower
       if employer = "" then false
       else
         let cp_name := (ft.counterparty_name.getD "").toLower
         let memo := (ft.memo.getD "").toLower
         let is_employer_match := strIn employer cp_name
         let is_payroll := strIn "salary" memo || strIn "bonus" memo
           || strIn "payroll" memo || strIn "compensation" memo
         let output := c.transaction_history.filter
           (fun t => !(t.txn_id == some fid))
         let has_history := output.any
           (fun t => (t.counterparty_name.getD "").toLower == cp_name)
         is_employer_match && is_payroll && has_history
     | none => false)
  | _ => false

/-- The set of calendar months of the flagged transactions that occur in
the history (unparseable dates contribute the sentinel month 0). -/
def seasFlaggedMonths (c : CaseInput) : List Int :=
  c.alert.flagged_transaction_ids.foldl (fun l fid =>
    match c.transaction_history.find? (fun t => t.txn_id == some fid) with
    | some t => insertIfAbsent l (pyGetMonth t)
    | none => l) []

/-- The maximum year among flagged transactions found in the history,
starting from 0. -/
def seasAlertYear (c : CaseInput) : Int :=
  c.alert.flagged_transaction_ids.foldl (fun y fid =>
    match c.transaction_history.find? (fun t => t.txn_id == some fid) with
    | some t => if pyGetYear t > y then pyGetYear t else y
    | none => y) 0

/-- Inbound transactions of the year before the flagged year whose month
matches a flagged month. -/
def seasPriorYearTxns (c : CaseInput) : List Txn :=
  c.transaction_history.filter (fun t =>
    pyGetYear t == seasAlertYear c - 1
    && decide (pyGetMonth t ∈ seasFlaggedMonths c)
    && t.direction == some "inbound")

/-- Total inbound volume of the matching prior-year months. -/
def seasPriorVol (c : CaseInput) : ℚ :=
  ((seasPriorYearTxns c).map (fun t => t.amount.getD 0)).sum

/-- Count of matching prior-year inbound transactions. -/
def seasPriorCount (c : CaseInput) : Nat :=
  (seasPriorYearTxns c).length

/-- The seasonal-spike exception SEAS-001 (`node2_triage_classify.py` lines
56-97), given the dossier's volume-deviation factor. -/
def seasonalRuleApplies (c : CaseInput) (vol_dev : ℚ) : Bool :=
  if vol_dev > 2 then
    if seasFlaggedMonths c ≠ [] then
      if seasPriorCount c > 20 ∧ seasPriorVol c > 0 then
        decide (flaggedInflow c.transaction_history
          c.alert.flagged_transaction_ids / seasPriorVol c < 1.5)
      else false
    else false
  else false

/-- Embedding of `apply_rule_based_triage`: the ordered first-match-wins
hard rules, returning `(classification, rule_id)` or `(none, none)`. -/
def apply_rule_based_triage (c : CaseInput) (dossier : Dossier) :
    Option String × Option String :=
  if (riskIntelOf c).sanctions_hits ≠ [] then
    (some "TRUE_POSITIVE", some "SANC-001")
  else if (riskIntelOf c).prior_sars ≠ []
      ∧ dossier.deviation_analysis.volume_deviation_factor > 2 then
    (some "TRUE_POSITIVE", some "HIST-001")
  else if salaryRuleApplies c then
    (some "FALSE_POSITIVE", some "SAL-001")
  else if seasonalRuleApplies c
      dossier.deviation_analysis.volume_deviation_factor then
    (some "FALSE_POSITIVE", some "SEAS-001")
  else (none, none)

/-- One scored typology candidate. -/
structure TypEntry where
  typology : String
  confidence : ℚ
  indicators : Nat
  deriving DecidableEq

/-- The confidence formula of `classify_typology`:
`min(0.5 + indicators * 0.12, 0.95)`. -/
def typologyConfidence (n : Nat) : ℚ :=
  min (0.5 + (n : ℚ) * 0.12) 0.95

/-- Stable descending insertion by confidence (the embedding of the
source's stable `sort(key=confidence, reverse=True)` on the candidate
list). -/
def insertDescByConf (e : TypEntry) : List TypEntry → List TypEntry
  | [] => [e]
  | x :: xs =>
    if x.confidence < e.confidence then e :: x :: xs
    else x :: insertDescByConf e xs

/-- Sort typology candidates by descending confidence. -/
def sortByConfDesc (l : List TypEntry) : List TypEntry :=
  l.foldl (fun acc e => insertDescByConf e acc) []

/-- The lowered alert type with the source's `"type"`-key fallback. -/
def alertTypeLower (c : CaseInput) : String :=
  let a := (c.alert.alert_type.getD "").toLower
  if a = "" then (c.alert.type.getD "").toLower else a

/-- Whether some flagged transaction is an international (non-US) wire. -/
def hasIntlWire (c : CaseInput) : Bool :=
  c.alert.flagged_transaction_ids.any (fun fid =>
    match c.transaction_history.find? (fun t => t.txn_id == some fid) with
    | some t =>
      strIn "wire" ((t.type.getD "").toLower)
        && (match t.counterparty_country with
            | some ctry => ctry ≠ "" && ctry ≠ "US"
            | none => false)
    | none => false)

/-- Whether some flagged transaction's type mentions a cash withdrawal
(the source does not lowercase here). -/
def hasCashWithdrawal (c : CaseInput) : Bool :=
  c.alert.flagged_transaction_ids.any (fun fid =>
    strIn "cash_withdrawal"
      (match c.transaction_history.find? (fun t => t.txn_id == some fid) with
       | some t => t.type.getD ""
       | none => ""))

/-- Whether the account was opened fewer than `days` days before the alert
(shared age test of the typology classifier). -/
def accountAgeUnder (now : Date) (c : CaseInput) (days : Int) : Bool :=
  match c.customer_profile.account_opened_date with
  | none => false
  | some os =>
    if os = "" then false
    else
      match parseDate10 os,
        (match c.alert.generated_at with
         | none => some now
         | some s => parseDate s) with
      | some od, some ad => decide (dayNumber ad - dayNumber od < days)
      | _, _ => false

/-- Indicator count of the structuring/layering typology. -/
def structuringIndicators (c : CaseInput) (dossier : Dossier) : Nat :=
  (if strIn "structuring" (alertTypeLower c) then 1 else 0)
  + (if dossier.deviation_analysis.new_counterparties_count > 10 then 1 else 0)
  + (if dossier.deviation_analysis.volume_deviation_factor > 3 then 1 else 0)
  + (if hasIntlWire c then 1 else 0)

/-- Indicator count of the funnel-account typology. -/
def funnelIndicators (now : Date) (c : CaseInput) (dossier : Dossier) : Nat :=
  (if strIn "funnel" (alertTypeLower c) then 1 else 0)
  + (if accountAgeUnder now c 180 then 1 else 0)
  + (if c.customer_profile.annual_income = 0
        ∨ strIn "student" ((c.customer_profile.occupation.getD "").toLower)
      then 1 else 0)
  + (if hasCashWithdrawal c then 1 else 0)
  + (if dossier.deviation_analysis.new_counterparties_count > 5 then 1 else 0)

/-- The ranked list of qualifying typology candidates of `classify_typology`
(`node2_triage_classify.py` lines 167-248): a typology qualifies with at
least two indicators, its confidence is `typologyConfidence`, and the
structuring name gains the continuing-activity suffix when prior SARs
exist. -/
def classifyTypologies (now : Date) (c : CaseInput) (dossier : Dossier) :
    List TypEntry :=
  let s := structuringIndicators c dossier
  let sEntry : List TypEntry :=
    if s ≥ 2 then
      [⟨(if (riskIntelOf c).prior_sars ≠ [] then
          "Structuring with Layering - Continuing Activity"
        else "Structuring with Layering"), typologyConfidence s, s⟩]
    else []
  let f := funnelIndicators now c dossier
  let fEntry : List TypEntry :=
    if f ≥ 2 then [⟨"Funnel Account (Money Mule)", typologyConfidence f, f⟩]
    else []
  sortByConfDesc (sEntry ++ fEntry)

/-- The typology assessment returned to the pipeline (timestamp field
omitted; no claim reads it). -/
structure TypologyAssessment where
  primary_typology : String
  secondary_typologies : List String
  total_typologies_evaluated : Nat
  deriving DecidableEq

/-- Embedding of `classify_typology`: primary is the highest-confidence
qualifying typology, defaulting to the generic label. -/
def classify_typology (now : Date) (c : CaseInput) (dossier : Dossier) :
    TypologyAssessment :=
  let typologies := classifyTypologies now c dossier
  { primary_typology :=
      match typologies with
      | [] => "General Suspicious Activity"
      | e :: _ => e.typology
    secondary_typologies := (typologies.drop 1).map TypEntry.typology
    total_typologies_evaluated := 5 }

/-- Fixed-point decimal rendering with one digit (`f"{x:.1f}"`),
presentation only. -/
def fmt1 (q : ℚ) : String :=
  let r := roundHalfToEven (q * 10)
  let a := if r < 0 then -r else r
  (if r < 0 then "-" else "") ++ toString (a / 10) ++ "." ++ toString (a % 10)

/-- The triage decision record of node 2 (timestamp and presentation-only
decision-factor list omitted; no claim reads them). -/
structure TriageDecision where
  unified_alert_id : Option String
  classification : String
  composite_risk_score : ℚ
  confidence : ℚ
  rule_based_result : Option String
  rule_matched : Option String
  behavioral_anomaly_score : ℚ
  llm_reasoning : Option String
  explanation : String
  rules_evaluated : Nat
  deriving DecidableEq

/-- Embedding of `node2_triage_classify` (`node2_triage_classify.py` lines
299-367): rule layer, behavioral score, composite blend, thresholded
classification, and — for TRUE_POSITIVE only — the typology assessment.
The deployed configuration never reaches the optional LLM call, so
`llm_reasoning` is always `none`, as in the emitted record. -/
def node2_triage_classify (now : Date) (c : CaseInput) (dossier : Dossier) :
    TriageDecision × Option TypologyAssessment :=
  let rc := apply_rule_based_triage c dossier
  let beh_score := compute_behavioral_anomaly_score now c dossier
  let composite_score := beh_score * 0.4
    + dossier.cross_source_risk_score * 0.2 + c.alert.risk_score * 0.4
  let cce : String × ℚ × String :=
    match rc.1 with
    | some rcls =>
      (rcls, if rcls = "TRUE_POSITIVE" then (0.95 : ℚ) else 0.90,
        "Matched hard triage rule " ++ rc.2.getD "None" ++ ".")
    | none =>
      if composite_score ≥ 60 then
        ("TRUE_POSITIVE", min (0.5 + (composite_score - 60) * 0.01) 0.95,
          "High composite risk score (" ++ fmt1 composite_score ++ ").")
      else if composite_score ≤ 30 then
        ("FALSE_POSITIVE", min (0.5 + (30 - composite_score) * 0.015) 0.90,
          "Low composite risk score (" ++ fmt1 composite_score ++ ").")
      else ("NEEDS_REVIEW", 0.4, "Data inconclusive, manual review required.")
  let typology_assessment :=
    if cce.1 = "TRUE_POSITIVE" then some (classify_typology now c dossier)
    else none
  let explanation :=
    match typology_assessment with
    | some ta => cce.2.2 ++ " Primary typology: " ++ ta.primary_typology ++ "."
    | none => cce.2.2
  ({ unified_alert_id := c.alert.alert_id
     classification := cce.1
     composite_risk_score := pyRound composite_score 2
     confidence := pyRound cce.2.1 2
     rule_based_result := rc.1
     rule_matched := rc.2
     behavioral_anomaly_score := pyRound beh_score 2
     llm_reasoning := none
     explanation := explanation
     rules_evaluated := 4 }, typology_assessment)

/-- Embedding of the dossier construction of `node1_ingest_enrich`
(`node1_ingest_enrich.py` lines 293-352): sanitize, baseline, deviation,
cross-source risk, and the derived booleans.  The `now` argument stands for
`datetime.now()` in the missing-timestamp fallback. -/
def node1Dossier (now : Date) (c : CaseInput) : Dossier :=
  let dd := deduplicate_transactions c.transaction_history
  let txns := dd.1
  let alert_date_str :=
    match c.alert.generated_at with
    | some s => s
    | none => dateStr now
  let baseline := compute_behavioral_baseline txns alert_date_str now
  let deviations := compute_deviation_analysis txns baseline
    c.alert.flagged_transaction_ids
  let cross := compute_cross_source_risk c
  { unified_alert_id := c.alert.alert_id
    customer_id := c.customer_profile.customer_id
    customer_name := c.customer_profile.name
    account_ids := c.alert.account_ids
    jurisdiction := c.alert.jurisdiction.getD "US"
    behavioral_baseline := baseline
    deviation_analysis := deviations
    cross_source_risk_score := cross.1
    risk_factors := cross.2
    has_prior_sars := !(riskIntelOf c).prior_sars.isEmpty
    prior_sar_count := (riskIntelOf c).prior_sars.length
    is_pep := (riskIntelOf c).pep_status
    has_sanctions_hits := !(riskIntelOf c).sanctions_hits.isEmpty
    has_adverse_media := !(riskIntelOf c).adverse_media_hits.isEmpty
    sources_consulted :=
      ["TMS", "KYC", "Credit Bureau", "Watchlist", "Internal History"]
    data_quality_score := 100 * ((txns.length : ℚ)
      / (if c.transaction_history.length = 0 then 1
         else (c.transaction_history.length : ℚ)))
    transactions_validated := txns.length
    transactions_quarantined := dd.2.2
    duplicates_removed := dd.2.1 }

/-- A case identical to `c` except for the alert's reported risk score. -/
def setAlertRiskScore (c : CaseInput) (a : ℚ) : CaseInput :=
  { c with alert := { c.alert with risk_score := a } }

/-- The (unrounded) composite score node 2 computes for a case when its
dossier comes from node 1:
`behavioral*0.4 + cross_source*0.2 + alert_risk*0.4`. -/
def pipelineCompositeScore (now : Date) (c : CaseInput) : ℚ :=
  compute_behavioral_anomaly_score now c (node1Dossier now c) * 0.4
    + (node1Dossier now c).cross_source_risk_score * 0.2
    + c.alert.risk_score * 0.4

/-- C1: whenever the case's risk intelligence contains at least one
sanctions hit, the first-match-wins rule layer answers TRUE_POSITIVE via
SANC-001 (no later rule is reached), and node 2's final classification is
TRUE_POSITIVE with confidence 0.95, for every dossier and every other
signal in the case. -/
theorem sanctions_rule_priority (now : Date) (c : CaseInput)
    (dossier : Dossier) (h : (riskIntelOf c).sanctions_hits ≠ []) :
    apply_rule_based_triage c dossier
      = (some "TRUE_POSITIVE", some "SANC-001")
    ∧ (node2_triage_classify now c dossier).1.classification = "TRUE_POSITIVE"
    ∧ (node2_triage_classify now c dossier).1.confidence = 0.95 := by
  have hr : apply_rule_based_triage c dossier
      = (some "TRUE_POSITIVE", some "SANC-001") := by
    simp only [apply_rule_based_triage]
    rw [if_pos h]
  refine ⟨hr, ?_, ?_⟩
  · simp [node2_triage_classify, hr]
  · simp [node2_triage_classify, hr]
    norm_num [pyRound, roundHalfToEven]

/-- A blank dossier (used to instantiate universally quantified dossier
arguments at concrete inputs). -/
def dossierZero : Dossier :=
  ⟨none, none, none, [], "US", emptyBaseline,
    ⟨0, false, 0, [], [], "No significant deviation", 0⟩,
    0, [], false, 0, false, false, false, [], 100, 0, 0, 0⟩

/-- A case with a sanctions hit and simultaneously every salary-exception
indicator: one flagged transaction from the declared employer with a bonus
memo and a prior transaction from the same counterparty. -/
def caseC1 : CaseInput :=
  { alert :=
      { alert_id := some "A1", alert_type := some "large_credit"
        type := none, risk_score := 10, generated_at := some "2024-03-01"
        flagged_transaction_ids := ["s1"], jurisdiction := some "US"
        account_ids := ["ACC1"] }
    customer_profile :=
      ⟨some "C1", some "Jane Roe", some "Acme", some "engineer", 120000,
        some "2020-01-01", none, none⟩
    transaction_history :=
      [⟨some "s1", some "2024-02-28", some 50000, some "inbound", some "ach",
          some "online", some "Acme Corp Payroll", some "US", some "annual bonus"⟩,
       ⟨some "s0", some "2023-02-27", some 45000, some "inbound", some "ach",
          some "online", some "Acme Corp Payroll", some "US", some "annual bonus"⟩]
    credit_profile := none
    risk_intelligence := some ⟨["OFAC match"], false, [], [], 0, []⟩
    investigator_notes := none }

/-- Witness for C1: on the concrete sanctions-plus-salary case the final
classification is TRUE_POSITIVE. -/
theorem sanctions_rule_priority_witness :
    (node2_triage_classify nowD caseC1 dossierZero).1.classification
      = "TRUE_POSITIVE" :=
  (sanctions_rule_priority nowD caseC1 dossierZero (by decide)).2.1

/-- C6: holding everything else in the case fixed, raising the alert's own
reported risk score never decreases the composite score node 2 computes on
the node-1 dossier (the direct 0.4-weighted term and the 0.15-per-point
cross-source contribution, capped at 100, are both monotone). -/
theorem composite_monotone_alert_risk (now : Date) (c : CaseInput)
    (a1 a2 : ℚ) (h : a1 ≤ a2) :
    pipelineCompositeScore now (setAlertRiskScore c a1)
      ≤ pipelineCompositeScore now (setAlertRiskScore c a2) := by
  have hbeh : compute_behavioral_anomaly_score now (setAlertRiskScore c a1)
        (node1Dossier now (setAlertRiskScore c a1))
      = compute_behavioral_anomaly_score now (setAlertRiskScore c a2)
        (node1Dossier now (setAlertRiskScore c a2)) := rfl
  have hterm : crossAlertTerm (setAlertRiskScore c a1)
      ≤ crossAlertTerm (setAlertRiskScore c a2) := by
    have e1 : crossAlertTerm (setAlertRiskScore c a1)
        = if a1 > 0 then a1 * 0.15 else 0 := rfl
    have e2 : crossAlertTerm (setAlertRiskScore c a2)
        = if a2 > 0 then a2 * 0.15 else 0 := rfl
    rw [e1, e2]
    split_ifs with h1 h2 <;> linarith
  have hpre : crossPre (setAlertRiskScore c a1)
      = crossPre (setAlertRiskScore c a2) := rfl
  have hnotes : crossNotesTerm (setAlertRiskScore c a1)
      = crossNotesTerm (setAlertRiskScore c a2) := rfl
  have hrating : crossRatingTerm (setAlertRiskScore c a1)
      = crossRatingTerm (setAlertRiskScore c a2) := rfl
  have hcross : (node1Dossier now (setAlertRiskScore c a1)).cross_source_risk_score
      ≤ (node1Dossier now (setAlertRiskScore c a2)).cross_source_risk_score := by
    have e1 : (node1Dossier now (setAlertRiskScore c a1)).cross_source_risk_score
        = min (crossRaw (setAlertRiskScore c a1)) 100 := rfl
    have e2 : (node1Dossier now (setAlertRiskScore c a2)).cross_source_risk_score
        = min (crossRaw (setAlertRiskScore c a2)) 100 := rfl
    rw [e1, e2]
    apply min_le_min _ le_rfl
    unfold crossRaw
    rw [hpre, hnotes, hrating]
    linarith
  have hrisk1 : (setAlertRiskScore c a1).alert.risk_score = a1 := rfl
  have hrisk2 : (setAlertRiskScore c a2).alert.risk_score = a2 := rfl
  unfold pipelineCompositeScore
  rw [hbeh, hrisk1, hrisk2]
  linarith

/-- Witness for C6 at a concrete case: raising the alert risk score from 10
to 20 does not decrease the composite score. -/
theorem composite_monotone_alert_risk_witness :
    pipelineCompositeScore nowD (setAlertRiskScore caseC1 10)
      ≤ pipelineCompositeScore nowD (setAlertRiskScore caseC1 20) :=
  composite_monotone_alert_risk nowD caseC1 10 20 (by norm_num)

theorem mem_insertDescByConf (e x : TypEntry) (l : List TypEntry) :
    x ∈ insertDescByConf e l ↔ x = e ∨ x ∈ l := by
  induction l with
  | nil => simp [insertDescByConf]
  | cons y ys ih =>
    simp only [insertDescByConf]
    split_ifs with hc
    · simp [List.mem_cons]
    · simp only [List.mem_cons, ih]
      tauto

theorem mem_sortByConfDesc_aux (l : List TypEntry) : ∀ acc x,
    (x ∈ l.foldl (fun acc e => insertDescByConf e acc) acc
      ↔ x ∈ acc ∨ x ∈ l) := by
  induction l with
  | nil =>
    intro acc x
    simp
  | cons e es ih =>
    intro acc x
    simp only [List.foldl_cons, ih, mem_insertDescByConf, List.mem_cons]
    tauto

theorem mem_sortByConfDesc (l : List TypEntry) (x : TypEntry) :
    x ∈ sortByConfDesc l ↔ x ∈ l := by
  unfold sortByConfDesc
  rw [mem_sortByConfDesc_aux l [] x]
  simp

theorem typologyConfidence_range (n : Nat) (h : 2 ≤ n) :
    0.5 ≤ typologyConfidence n ∧ typologyConfidence n ≤ 0.95 := by
  unfold typologyConfidence
  constructor
  · apply le_min
    · have h0 : (0 : ℚ) ≤ (n : ℚ) * 0.12 := by positivity
      linarith
    · norm_num
  · exact min_le_right _ _

/-- C8: every qualifying typology entry has at least two indicators and
confidence `min(0.5 + indicators * 0.12, 0.95)`, which lies in
`[0.5, 0.95]`; and that confidence strictly increases with the indicator
count as long as the 0.95 cap has not been reached. -/
theorem typology_confidence_bounds (now : Date) (c : CaseInput)
    (dossier : Dossier) :
    (∀ e ∈ classifyTypologies now c dossier,
      2 ≤ e.indicators ∧ e.confidence = typologyConfidence e.indicators
        ∧ 0.5 ≤ e.confidence ∧ e.confidence ≤ 0.95)
    ∧ (∀ n : Nat, 2 ≤ n → typologyConfidence n < 0.95 →
        typologyConfidence n < typologyConfidence (n + 1)) := by
  constructor
  · intro e he
    rw [classifyTypologies, mem_sortByConfDesc] at he
    have hcases : (2 ≤ structuringIndicators c dossier
          ∧ e.indicators = structuringIndicators c dossier
          ∧ e.confidence = typologyConfidence (structuringIndicators c dossier))
        ∨ (2 ≤ funnelIndicators now c dossier
          ∧ e.indicators = funnelIndicators now c dossier
          ∧ e.confidence = typologyConfidence (funnelIndicators now c dossier)) := by
      rcases List.mem_append.mp he with hm | hm
      · left
        by_cases hq : structuringIndicators c dossier ≥ 2
        · rw [if_pos hq] at hm
          have he2 := List.mem_singleton.mp hm
          subst he2
          exact ⟨hq, rfl, rfl⟩
        · rw [if_neg hq] at hm
          exact absurd hm (List.not_mem_nil e)
      · right
        by_cases hq : funnelIndicators now c dossier ≥ 2
        · rw [if_pos hq] at hm
          have he2 := List.mem_singleton.mp hm
          subst he2
          exact ⟨hq, rfl, rfl⟩
        · rw [if_neg hq] at hm
          exact absurd hm (List.not_mem_nil e)
    rcases hcases with ⟨hq, hi, hc⟩ | ⟨hq, hi, hc⟩ <;>
      [skip; skip] <;>
      · rw [hi, hc]
        refine ⟨hq, rfl, ?_, ?_⟩
        · exact (typologyConfidence_range _ hq).1
        · exact (typologyConfidence_range _ hq).2
  · intro n h2 hlt
    have hval : typologyConfidence n = 0.5 + (n : ℚ) * 0.12 := by
      unfold typologyConfidence at hlt ⊢
      rcases min_lt_iff.mp hlt with hlt2 | hlt2
      · exact min_eq_left (le_of_lt hlt2)
      · exact absurd hlt2 (lt_irrefl _)
    have hsmall : 0.5 + (n : ℚ) * 0.12 < 0.95 := by
      rw [hval] at hlt
      exact hlt
    rw [hval]
    unfold typologyConfidence
    apply lt_min
    · push_cast
      linarith
    · exact hsmall

/-- Witness for C8: the confidence at two indicators (0.74, below the cap)
is strictly below the confidence at three indicators. -/
theorem typology_confidence_bounds_witness :
    typologyConfidence 2 < typologyConfidence 3 :=
  (typology_confidence_bounds nowD caseC1 dossierZero).2 2 (by norm_num)
    (by rw [typologyConfidence]; norm_num)

/-- A prior-year inbound transaction (June 2022, amount 1). -/
def seasTxnPrior : Txn :=
  ⟨some "p", some "2022-06-01", some 1, some "inbound", none, none, none,
    none, none⟩

/-- A flagged June-2023 inbound transaction of amount 10. -/
def seasTxnF1 : Txn :=
  ⟨some "f1", some "2023-06-15", some 10, some "inbound", none, none, none,
    none, none⟩

/-- A flagged inbound transaction of amount 5 whose date does not parse. -/
def seasTxnF2 : Txn :=
  ⟨some "f2", some "nope", some 5, some "inbound", none, none, none, none,
    none⟩

/-- A case with two flagged transactions — one with an unparseable date —
and 21 matching prior-year inbound transactions. -/
def caseC9 : CaseInput :=
  { alert :=
      { alert_id := some "A9", alert_type := none, type := none
        risk_score := 0, generated_at := some "2023-07-01"
        flagged_transaction_ids := ["f1", "f2"], jurisdiction := none
        account_ids := [] }
    customer_profile := ⟨none, none, none, none, 0, none, none, none⟩
    transaction_history :=
      List.replicate 21 seasTxnPrior ++ [seasTxnF1, seasTxnF2]
    credit_profile := none
    risk_intelligence := none
    investigator_notes := none }

/-- A dossier whose volume-deviation factor is 3. -/
def dossierC9 : Dossier :=
  ⟨none, none, none, [], "US", emptyBaseline,
    ⟨3, false, 0, [], [], "", 2⟩, 0, [], false, 0, false, false, false, [],
    100, 23, 0, 0⟩

theorem seasC9_months : seasFlaggedMonths caseC9 = [6, 0] := by decide

theorem seasC9_priorTxns :
    seasPriorYearTxns caseC9 = List.replicate 21 seasTxnPrior := by decide

theorem seasC9_priorVol : seasPriorVol caseC9 = 21 := by
  rw [seasPriorVol, seasC9_priorTxns]
  simp [seasTxnPrior, List.map_replicate, List.sum_replicate, nsmul_eq_mul]
  norm_num

theorem seasC9_priorCount : seasPriorCount caseC9 = 21 := by
  rw [seasPriorCount, seasC9_priorTxns]
  simp

theorem seasC9_flaggedInflow :
    flaggedInflow caseC9.transaction_history
      caseC9.alert.flagged_transaction_ids = 15 := by
  have hfl : flaggedTxns caseC9.transaction_history
      caseC9.alert.flagged_transaction_ids = [seasTxnF1, seasTxnF2] := by
    decide
  rw [flaggedInflow, hfl]
  norm_num [seasTxnF1, seasTxnF2]

theorem seasC9_ruleApplies : seasonalRuleApplies caseC9 3 = true := by
  rw [seasonalRuleApplies]
  rw [if_pos (by norm_num : (3 : ℚ) > 2)]
  rw [if_pos (by rw [seasC9_months]; simp : seasFlaggedMonths caseC9 ≠ [])]
  rw [if_pos ⟨by rw [seasC9_priorCount]; norm_num,
    by rw [seasC9_priorVol]; norm_num⟩]
  simp only [decide_eq_true_eq]
  rw [seasC9_flaggedInflow, seasC9_priorVol]
  norm_num

theorem seasC9_fires :
    apply_rule_based_triage caseC9 dossierC9
      = (some "FALSE_POSITIVE", some "SEAS-001") := by
  rw [apply_rule_based_triage]
  rw [if_neg (by decide : ¬ (riskIntelOf caseC9).sanctions_hits ≠ [])]
  rw [if_neg (fun hc => hc.1 (by decide))]
  rw [if_neg (by decide : ¬ salaryRuleApplies caseC9 = true)]
  have hv : dossierC9.deviation_analysis.volume_deviation_factor = (3 : ℚ) :=
    rfl
  rw [hv, if_pos seasC9_ruleApplies]

/-- C9 counterexample: the seasonal rule fires on a case in which a flagged
transaction's calendar month is not known — `seasTxnF2`'s date fails to
parse and contributes the sentinel month 0 — so "every flagged
transaction's calendar month is known" is not among the conditions the code
enforces. -/
theorem seas_rule_counterexample :
    apply_rule_based_triage caseC9 dossierC9
        = (some "FALSE_POSITIVE", some "SEAS-001")
    ∧ "f2" ∈ caseC9.alert.flagged_transaction_ids
    ∧ caseC9.transaction_history.find? (fun t => t.txn_id == some "f2")
        = some seasTxnF2
    ∧ txnParsedDate seasTxnF2 = none
    ∧ pyGetMonth seasTxnF2 = 0 :=
  ⟨seasC9_fires, by decide, by decide, by decide, by decide⟩

/-- C9 (amended): SEAS-001 returns FALSE_POSITIVE only when the
volume-deviation factor exceeds 2.0, at least one flagged transaction is
found in the history (unparseable flagged dates contributing the sentinel
month 0 rather than being required to parse), the matching months one year
before the latest flagged year contain more than 20 inbound transactions
with positive total volume, and the ratio of current flagged inbound volume
to that prior-year volume is below 1.5. -/
theorem seas_rule_necessary_conditions (c : CaseInput) (dossier : Dossier)
    (h : apply_rule_based_triage c dossier
      = (some "FALSE_POSITIVE", some "SEAS-001")) :
    dossier.deviation_analysis.volume_deviation_factor > 2
    ∧ seasFlaggedMonths c ≠ []
    ∧ seasPriorCount c > 20
    ∧ seasPriorVol c > 0
    ∧ flaggedInflow c.transaction_history c.alert.flagged_transaction_ids
        / seasPriorVol c < 1.5 := by
  rw [apply_rule_based_triage] at h
  by_cases h1 : (riskIntelOf c).sanctions_hits ≠ []
  · rw [if_pos h1] at h
    exact absurd h (by decide)
  · rw [if_neg h1] at h
    by_cases h2 : (riskIntelOf c).prior_sars ≠ []
        ∧ dossier.deviation_analysis.volume_deviation_factor > 2
    · rw [if_pos h2] at h
      exact absurd h (by decide)
    · rw [if_neg h2] at h
      by_cases h3 : salaryRuleApplies c = true
      · rw [if_pos h3] at h
        exact absurd h (by decide)
      · rw [if_neg h3] at h
        by_cases h4 : seasonalRuleApplies c
            dossier.deviation_analysis.volume_deviation_factor = true
        · rw [seasonalRuleApplies] at h4
          by_cases g1 : dossier.deviation_analysis.volume_deviation_factor > 2
          · rw [if_pos g1] at h4
            by_cases g2 : seasFlaggedMonths c ≠ []
            · rw [if_pos g2] at h4
              by_cases g3 : seasPriorCount c > 20 ∧ seasPriorVol c > 0
              · rw [if_pos g3] at h4
                rw [decide_eq_true_eq] at h4
                exact ⟨g1, g2, g3.1, g3.2, h4⟩
              · rw [if_neg g3] at h4
                exact absurd h4 (by decide)
            · rw [if_neg g2] at h4
              exact absurd h4 (by decide)
          · rw [if_neg g1] at h4
            exact absurd h4 (by decide)
        · rw [if_neg h4] at h
          exact absurd h (by decide)

/-- Witness for the amended C9 theorem: the necessary conditions hold at
the concrete firing case. -/
theorem seas_rule_necessary_conditions_witness :
    dossierC9.deviation_analysis.volume_deviation_factor > 2
    ∧ seasFlaggedMonths caseC9 ≠ []
    ∧ seasPriorCount caseC9 > 20
    ∧ seasPriorVol caseC9 > 0
    ∧ flaggedInflow caseC9.transaction_history
        caseC9.alert.flagged_transaction_ids / seasPriorVol caseC9 < 1.5 :=
  seas_rule_necessary_conditions caseC9 dossierC9 seasC9_fires

/-- Status of a single narrative-validation check. -/
inductive CheckStatus
  | PASS
  | WARN
  | FAIL
  deriving DecidableEq

/-- Severity of a single narrative-validation check. -/
inductive Severity
  | critical
  | major
  | minor
  deriving DecidableEq

/-- One named check of the 5W+How battery. -/
structure Check where
  check : String
  status : CheckStatus
  severity : Severity
  detail : String
  deriving DecidableEq

/-- The check battery of `validate_5w_how` (`node4_validate_package.py`
lines 6-129).  The text-scanning layer (substring and regex matches over
the narrative) is abstracted into its observations: `who`, `what`,
`whenOk`, `whereOk` are the four critical presence tests, `suspicionCount`
/ `mechCount` the keyword tallies, `amountMatches` / `countMatches` the
regex match counts, `priorSars` / `hasRef` the prior-SAR reference test,
`wordCount` the narrative length, and `hasDef` the definitive-conclusions
test.  Statuses and severities are exactly those of the source. -/
def validate_5w_checks (who what whenOk whereOk : Bool)
    (suspicionCount mechCount amountMatches countMatches : Nat)
    (priorSars hasRef : Bool) (wordCount : Nat) (hasDef : Bool) :
    List Check :=
  [⟨"WHO_SUBJECT_IDENTIFIED",
      if who then CheckStatus.PASS else CheckStatus.FAIL, Severity.critical,
      if who then "Subject name found." else "Subject name missing."⟩,
   ⟨"WHAT_ACTIVITY_DESCRIBED",
      if what then CheckStatus.PASS else CheckStatus.FAIL, Severity.critical,
      "Activity type described."⟩,
   ⟨"WHEN_DATES_PRESENT",
      if whenOk then CheckStatus.PASS else CheckStatus.FAIL, Severity.critical,
      if whenOk then "Dates found." else "No dates found."⟩,
   ⟨"WHERE_LOCATION_PRESENT",
      if whereOk then CheckStatus.PASS else CheckStatus.FAIL,
      Severity.critical,
      if whereOk then "Location references found."
      else "No location references."⟩,
   ⟨"WHY_SUSPICION_EXPLAINED",
      if suspicionCount ≥ 2 then CheckStatus.PASS else CheckStatus.FAIL,
      Severity.critical,
      "Found " ++ toString suspicionCount ++ " suspicion keywords."⟩,
   ⟨"HOW_MECHANISM_DESCRIBED",
      if mechCount ≥ 3 then CheckStatus.PASS else CheckStatus.FAIL,
      Severity.major,
      "Found " ++ toString mechCount ++ " mechanism keywords."⟩,
   ⟨"AMOUNTS_SPECIFIC",
      if amountMatches ≥ 2 then CheckStatus.PASS else CheckStatus.WARN,
      Severity.major,
      "Found " ++ toString amountMatches ++ " specific amounts."⟩,
   ⟨"TRANSACTION_COUNTS",
      if countMatches > 0 then CheckStatus.PASS else CheckStatus.WARN,
      Severity.major,
      if countMatches > 0 then "Transaction counts referenced."
      else "No explicit transaction counts."⟩]
  ++ (if priorSars then
      [⟨"PRIOR_HISTORY_REFERENCED",
          if hasRef then CheckStatus.PASS else CheckStatus.WARN,
          Severity.minor,
          if hasRef then "Prior SARs referenced."
          else "Prior SARs exist but not referenced."⟩]
    else [])
  ++ [⟨"NARRATIVE_LENGTH",
        if wordCount < 200 then CheckStatus.WARN
        else if wordCount > 5000 then CheckStatus.WARN else CheckStatus.PASS,
        Severity.minor, "Word count: " ++ toString wordCount⟩,
      ⟨"NO_DEFINITIVE_CONCLUSIONS",
        if hasDef then CheckStatus.FAIL else CheckStatus.PASS,
        Severity.minor,
        if hasDef then "Definitive conclusions found (avoid this)."
        else "No definitive legal conclusions found."⟩]

/-- Consolidation of the check battery into the overall status
(`node4_validate_package.py` lines 131-150): any critical FAIL gives
overall FAIL; otherwise any major FAIL or more than two WARNs gives WARN;
otherwise PASS. -/
def overallStatus (checks : List Check) : String :=
  let crit_fail := checks.any (fun c =>
    decide (c.status = CheckStatus.FAIL ∧ c.severity = Severity.critical))
  let maj_fail := checks.any (fun c =>
    decide (c.status = CheckStatus.FAIL ∧ c.severity = Severity.major))
  let warnings := (checks.filter
    (fun c => c.status == CheckStatus.WARN)).length
  if crit_fail then "FAIL"
  else if maj_fail ∨ warnings > 2 then "WARN"
  else "PASS"

/-- The validation result record of `validate_5w_how` (timestamp omitted;
no claim reads it). -/
structure ValidationResult where
  case_id : Option String
  overall_status : String
  total_checks : Nat
  passed : Nat
  warnings : Nat
  failed : Nat
  checks : List Check
  deriving DecidableEq

/-- Embedding of `validate_5w_how` over the abstracted text observations. -/
def validate_5w_how (case_id : Option String) (who what whenOk whereOk : Bool)
    (suspicionCount mechCount amountMatches countMatches : Nat)
    (priorSars hasRef : Bool) (wordCount : Nat) (hasDef : Bool) :
    ValidationResult :=
  let checks := validate_5w_checks who what whenOk whereOk suspicionCount
    mechCount amountMatches countMatches priorSars hasRef wordCount hasDef
  { case_id := case_id
    overall_status := overallStatus checks
    total_checks := checks.length
    passed := (checks.filter (fun c => c.status == CheckStatus.PASS)).length
    warnings := (checks.filter (fun c => c.status == CheckStatus.WARN)).length
    failed := (checks.filter (fun c => c.status == CheckStatus.FAIL)).length
    checks := checks }

theorem overallStatus_spec (checks : List Check) :
    (overallStatus checks = "FAIL"
      ↔ ∃ c ∈ checks,
          c.severity = Severity.critical ∧ c.status = CheckStatus.FAIL)
    ∧ (overallStatus checks = "WARN"
      ↔ ¬(∃ c ∈ checks,
            c.severity = Severity.critical ∧ c.status = CheckStatus.FAIL)
        ∧ ((∃ c ∈ checks,
              c.severity = Severity.major ∧ c.status = CheckStatus.FAIL)
          ∨ (checks.filter (fun c => c.status == CheckStatus.WARN)).length > 2))
    ∧ (overallStatus checks = "PASS"
      ↔ ¬(∃ c ∈ checks,
            c.severity = Severity.critical ∧ c.status = CheckStatus.FAIL)
        ∧ ¬((∃ c ∈ checks,
              c.severity = Severity.major ∧ c.status = CheckStatus.FAIL)
          ∨ (checks.filter (fun c => c.status == CheckStatus.WARN)).length > 2)) := by
  have hcf : (checks.any (fun c =>
      decide (c.status = CheckStatus.FAIL ∧ c.severity = Severity.critical))
        = true)
      ↔ ∃ c ∈ checks,
          c.severity = Severity.critical ∧ c.status = CheckStatus.FAIL := by
    simp only [List.any_eq_true, decide_eq_true_eq]
    constructor
    · rintro ⟨c, hc, h1, h2⟩
      exact ⟨c, hc, h2, h1⟩
    · rintro ⟨c, hc, h1, h2⟩
      exact ⟨c, hc, h2, h1⟩
  have hmf : (checks.any (fun c =>
      decide (c.status = CheckStatus.FAIL ∧ c.severity = Severity.major))
        = true)
      ↔ ∃ c ∈ checks,
          c.severity = Severity.major ∧ c.status = CheckStatus.FAIL := by
    simp only [List.any_eq_true, decide_eq_true_eq]
    constructor
    · rintro ⟨c, hc, h1, h2⟩
      exact ⟨c, hc, h2, h1⟩
    · rintro ⟨c, hc, h1, h2⟩
      exact ⟨c, hc, h2, h1⟩
  unfold overallStatus
  dsimp only
  split_ifs with h1 h2
  · refine ⟨by simp [hcf.mp h1], ?_, ?_⟩
    · constructor
      · intro hc
        exact absurd hc (by decide)
      · rintro ⟨hn, -⟩
        exact absurd (hcf.mp h1) hn
    · constructor
      · intro hc
        exact absurd hc (by decide)
      · rintro ⟨hn, -⟩
        exact absurd (hcf.mp h1) hn
  · have hnc : ¬∃ c ∈ checks,
        c.severity = Severity.critical ∧ c.status = CheckStatus.FAIL :=
      fun hc => h1 (hcf.mpr hc)
    refine ⟨?_, ?_, ?_⟩
    · constructor
      · intro hc
        exact absurd hc (by decide)
      · intro hc
        exact absurd hc hnc
    · constructor
      · intro _
        refine ⟨hnc, ?_⟩
        rcases h2 with h2 | h2
        · exact Or.inl (hmf.mp h2)
        · exact Or.inr h2
      · intro _
        rfl
    · constructor
      · intro hc
        exact absurd hc (by decide)
      · rintro ⟨-, hn⟩
        apply absurd h2
        intro hc
        apply hn
        rcases hc with hc | hc
        · exact Or.inl (hmf.mp hc)
        · exact Or.inr hc
  · have hnc : ¬∃ c ∈ checks,
        c.severity = Severity.critical ∧ c.status = CheckStatus.FAIL :=
      fun hc => h1 (hcf.mpr hc)
    have hnm : ¬((∃ c ∈ checks,
          c.severity = Severity.major ∧ c.status = CheckStatus.FAIL)
        ∨ (checks.filter (fun c => c.status == CheckStatus.WARN)).length > 2) := by
      intro hc
      apply h2
      rcases hc with hc | hc
      · exact Or.inl (hmf.mpr hc)
      · exact Or.inr hc
    refine ⟨?_, ?_, ?_⟩
    · constructor
      · intro hc
        exact absurd hc (by decide)
      · intro hc
        exact absurd hc hnc
    · constructor
      · intro hc
        exact absurd hc (by decide)
      · rintro ⟨-, hc⟩
        exact absurd hc hnm
    · exact ⟨fun _ => ⟨hnc, hnm⟩, fun _ => rfl⟩

/-- C7: for every narrative and case (ranging over all observable outcomes
of the text checks), the validator's overall status is FAIL exactly when
some critical-severity check fails — regardless of WARN counts or of FAILs
at major or minor severity; otherwise it is WARN exactly when some
major-severity check fails or more than two checks are WARN, and PASS in
all remaining cases. -/
theorem validator_overall_status (who what whenOk whereOk : Bool)
    (suspicionCount mechCount amountMatches countMatches : Nat)
    (priorSars hasRef : Bool) (wordCount : Nat) (hasDef : Bool) :
    ((validate_5w_how none who what whenOk whereOk suspicionCount mechCount
        amountMatches countMatches priorSars hasRef wordCount
        hasDef).overall_status = "FAIL"
      ↔ ∃ c ∈ validate_5w_checks who what whenOk whereOk suspicionCount
            mechCount amountMatches countMatches priorSars hasRef wordCount
            hasDef,
          c.severity = Severity.critical ∧ c.status = CheckStatus.FAIL)
    ∧ ((validate_5w_how none who what whenOk whereOk suspicionCount mechCount
        amountMatches countMatches priorSars hasRef wordCount
        hasDef).overall_status = "WARN"
      ↔ ¬(∃ c ∈ validate_5w_checks who what whenOk whereOk suspicionCount
            mechCount amountMatches countMatches priorSars hasRef wordCount
            hasDef,
          c.severity = Severity.critical ∧ c.status = CheckStatus.FAIL)
        ∧ ((∃ c ∈ validate_5w_checks who what whenOk whereOk suspicionCount
              mechCount amountMatches countMatches priorSars hasRef wordCount
              hasDef,
            c.severity = Severity.major ∧ c.status = CheckStatus.FAIL)
          ∨ ((validate_5w_checks who what whenOk whereOk suspicionCount
              mechCount amountMatches countMatches priorSars hasRef wordCount
              hasDef).filter
                (fun c => c.status == CheckStatus.WARN)).length > 2))
    ∧ ((validate_5w_how none who what whenOk whereOk suspicionCount mechCount
        amountMatches countMatches priorSars hasRef wordCount
        hasDef).overall_status = "PASS"
      ↔ ¬(∃ c ∈ validate_5w_checks who what whenOk whereOk suspicionCount
            mechCount amountMatches countMatches priorSars hasRef wordCount
            hasDef,
          c.severity = Severity.critical ∧ c.status = CheckStatus.FAIL)
        ∧ ¬((∃ c ∈ validate_5w_checks who what whenOk whereOk suspicionCount
              mechCount amountMatches countMatches priorSars hasRef wordCount
              hasDef,
            c.severity = Severity.major ∧ c.status = CheckStatus.FAIL)
          ∨ ((validate_5w_checks who what whenOk whereOk suspicionCount
              mechCount amountMatches countMatches priorSars hasRef wordCount
              hasDef).filter
                (fun c => c.status == CheckStatus.WARN)).length > 2)) :=
  overallStatus_spec (validate_5w_checks who what whenOk whereOk
    suspicionCount mechCount amountMatches countMatches priorSars hasRef
    wordCount hasDef)

/-- Witness for C7: with a failing WHO check (critical) the overall status
is FAIL. -/
theorem validator_overall_status_witness :
    (validate_5w_how none false true true true 2 3 2 1 false false 300
      false).overall_status = "FAIL" :=
  (validator_overall_status false true true true 2 3 2 1 false false 300
    false).1.mpr
    ⟨⟨"WHO_SUBJECT_IDENTIFIED", CheckStatus.FAIL, Severity.critical,
        "Subject name missing."⟩, by decide, by decide, by decide⟩

/-- The externally produced draft narrative (contents opaque to the
deterministic pipeline; only its presence is branched on). -/
structure DraftNarrative where
  title : String
  full_narrative : String
  word_count : Nat
  generation_model : Option String
  prompt_hash : Option String
  rag_chunks_used : Nat
  deriving DecidableEq

/-- The audit package, abbreviated to its identity fields: every claim
observes only whether the final output carries one at all. -/
structure AuditPackage where
  case_id : Option String
  pipeline_version : String
  deriving DecidableEq

/-- The final SAR output record.  A key the source's dictionary omits
entirely (the non-TRUE_POSITIVE branch of `build_final_output`) and a key
set to `None` (the packaging exit) are both embedded as `none`. -/
structure FinalOutput where
  case_id : Option String
  triage_decision : Option String
  triage_explanation : Option String
  risk_score : Option ℚ
  typology : Option String
  sar_narrative : Option DraftNarrative
  validation_result : Option ValidationResult
  audit_package : Option AuditPackage
  processing_time_seconds : ℚ
  deriving DecidableEq

/-- The mutable state envelope threaded through the orchestrator
(`pipeline/state.py`; control fields not read by any claim omitted). -/
structure PipelineState where
  case_input : CaseInput
  enriched_dossier : Option Dossier
  triage_decision : Option TriageDecision
  typology_assessment : Option TypologyAssessment
  draft_narrative : Option DraftNarrative
  validation_result : Option ValidationResult
  audit_package : Option AuditPackage
  final_output : Option FinalOutput
  deriving DecidableEq

/-- The conditional router after node 2 (`pipeline/graph.py` lines 18-28):
narrative generation only for TRUE_POSITIVE, the packaging exit for
everything else (including a missing triage decision). -/
def triage_router (state : PipelineState) : String :=
  match state.triage_decision with
  | some td =>
    if td.classification = "TRUE_POSITIVE" then "node3_generate"
    else "package_fp_exit"
  | none => "package_fp_exit"

/-- The packaging exit for non-TRUE_POSITIVE cases (`pipeline/graph.py`
lines 30-55): a final output with explicit null typology, narrative,
validation result and audit package. -/
def package_fp_exit (state : PipelineState) : PipelineState :=
  let classification :=
    match state.triage_decision with
    | some td => td.classification
    | none => "UNKNOWN"
  let explanation :=
    match state.triage_decision with
    | some td => td.explanation
    | none => "No explanation provided."
  let risk_score :=
    match state.triage_decision with
    | some td => td.composite_risk_score
    | none => 0
  let fo : FinalOutput :=
    { case_id := state.case_input.alert.alert_id
      triage_decision := some classification
      triage_explanation := some explanation
      risk_score := some risk_score
      typology := none
      sar_narrative := none
      validation_result := none
      audit_package := none
      processing_time_seconds := 0 }
  { state with final_output := some fo }

/-- Embedding of `build_final_output` (`node4_validate_package.py` lines
229-252): the narrative, validation result and audit package are attached
only for TRUE_POSITIVE with a present narrative.  (The source would raise
on a missing typology assessment; on its reachable TRUE_POSITIVE path the
assessment is always present, and the missing-key case is embedded as
`none`.) -/
def build_final_output (state : PipelineState) : FinalOutput :=
  let base : FinalOutput :=
    { case_id := state.case_input.alert.alert_id
      triage_decision := state.triage_decision.map TriageDecision.classification
      triage_explanation := state.triage_decision.map TriageDecision.explanation
      risk_score :=
        state.triage_decision.map TriageDecision.composite_risk_score
      typology :=
        state.typology_assessment.map TypologyAssessment.primary_typology
      sar_narrative := none
      validation_result := none
      audit_package := none
      processing_time_seconds := 0 }
  match state.draft_narrative with
  | some nar =>
    if state.triage_decision.map TriageDecision.classification
        = some "TRUE_POSITIVE" then
      { base with sar_narrative := some nar
                  validation_result := state.validation_result
                  audit_package := state.audit_package }
    else base
  | none => base

/-- C2: whenever the triage classification is not TRUE_POSITIVE, the router
sends the run straight to the packaging exit, and the exit's final output
carries a null typology, null narrative, null validation result and null
audit package while still holding the case identifier, the classification,
the explanation, and the composite risk score. -/
theorem fp_exit_routing (state : PipelineState) (td : TriageDecision)
    (hts : state.triage_decision = some td)
    (h : td.classification ≠ "TRUE_POSITIVE") :
    triage_router state = "package_fp_exit"
    ∧ (package_fp_exit state).final_output = some
      { case_id := state.case_input.alert.alert_id
        triage_decision := some td.classification
        triage_explanation := some td.explanation
        risk_score := some td.composite_risk_score
        typology := none
        sar_narrative := none
        validation_result := none
        audit_package := none
        processing_time_seconds := 0 } := by
  constructor
  · rw [triage_router, hts]
    simp [h]
  · simp [package_fp_exit, hts]

/-- A non-TRUE_POSITIVE triage decision used to exercise the packaging
exit. -/
def tdFP : TriageDecision :=
  ⟨some "A1", "FALSE_POSITIVE", 20, 0.9, none, none, 10, none,
    "Low composite risk score (20.0).", 4⟩

/-- A post-triage pipeline state holding a FALSE_POSITIVE decision. -/
def stateFP : PipelineState :=
  ⟨caseC1, some dossierZero, some tdFP, none, none, none, none, none⟩

/-- Witness for C2: the concrete FALSE_POSITIVE state routes to the
packaging exit. -/
theorem fp_exit_routing_witness :
    triage_router stateFP = "package_fp_exit" :=
  (fp_exit_routing stateFP tdFP rfl (by decide)).1
